import Mathlib

/-!
Verification development for the griftfinder story-classification engine
(src/lib/story-classifier.ts, imported types from src/lib/supabase/queries.ts).

The classifier is a pure function over an in-memory snapshot, so it is
shallowly embedded: every TypeScript record type becomes a Lean structure,
JS numbers on the data paths are modeled as rationals, nullable fields as
Option, and the JS truthiness-based defaulting idioms (x || y) as explicit
helper functions.  JS Map/Set insertion-order semantics are modeled with
association lists and first-occurrence deduplication.  JS Array.prototype.sort
with a consistent comparator is modeled as a stable sort (insertionSort) for
the same ordering relation, which has the same result.

Free-prose headline/narrative strings are abridged (no verified property
constrains them); every field a claimed property mentions (id, pattern,
severity, entities, totalMoney, networkSize, sourceCount) is modeled exactly
after the source.
-/

namespace Grift

/-- Severity tier of a story, src/lib/story-classifier.ts line 21. -/
inductive Severity where
  | critical
  | high
  | medium
  | info
deriving DecidableEq, Repr

/-- Numeric severity rank, story-classifier.ts line 103:
severityOrder = critical 0, high 1, medium 2, info 3. -/
def severityOrder : Severity → ℕ
  | .critical => 0
  | .high => 1
  | .medium => 2
  | .info => 3

/-- Entity reference inside a story (id, name, role). -/
structure EntityRef where
  id : String
  name : String
  role : String
deriving DecidableEq, Repr

/-- Evidence item inside a story (type, description). -/
structure EvidenceItem where
  kind : String
  description : String
deriving DecidableEq, Repr

/-- Output story record, story-classifier.ts lines 18-30. -/
structure ClassifiedStory where
  id : String
  pattern : String
  severity : Severity
  headline : String
  narrative : String
  entities : List EntityRef
  evidence : List EvidenceItem
  totalMoney : ℚ
  date : String
  networkSize : ℕ
  sourceCount : ℕ
deriving DecidableEq, Repr

/-- Entity row (queries.ts): only the fields the classifier reads. -/
structure Entity where
  id : String
  canonical_name : String
  entity_type : String
deriving DecidableEq, Repr

/-- Free-form signal detail payload: the fields the classifier probes.
Values are optional because the payload is dynamically shaped
(Record of string to unknown in the source). -/
structure SignalDetails where
  vendor : Option String
  recipient : Option String
  amount : Option ℚ
  total_amount : Option ℚ
  payment_count : Option ℚ
  description : Option String
deriving DecidableEq, Repr

/-- Signal row (queries.ts lines 16-26): fields the classifier reads. -/
structure Signal where
  id : String
  signal_type : String
  entity_id : String
  detected_at : String
  details : SignalDetails
deriving DecidableEq, Repr

/-- One lobbyist entry of a revolving-door LDA finding detail. -/
structure Lobbyist where
  name : String
  covered_position : String
deriving DecidableEq, Repr

/-- Finding detail payload: the classifier only probes
revolving_door_lobbyists on it. -/
structure FindingDetail where
  revolving_door_lobbyists : Option (List Lobbyist)
deriving DecidableEq, Repr

/-- One finding of an MMIX investigation entry. -/
structure Finding where
  source : String
  summary : String
  detail : Option FindingDetail
deriving DecidableEq, Repr

/-- MMIX investigation entry (queries.ts lines 28-46): fields read here. -/
structure MmixEntry where
  id : String
  entity_id : String
  entity_name : String
  status : String
  thesis : String
  sources_queried : List String
  findings : List Finding
  entered_at : String
deriving DecidableEq, Repr

/-- Relationship edge (queries.ts lines 92-101). -/
structure Relationship where
  id : String
  source_entity_id : String
  target_entity_id : String
  relationship_type : String
  is_current : Bool
deriving DecidableEq, Repr

/-- FEC disbursement row (queries.ts lines 66-78).  Fields the code guards
with defaulting (x || 0, x || '') are modeled as Option. -/
structure FecDisbursement where
  committee_name : Option String
  committee_id : Option String
  recipient_name : Option String
  disbursement_amount : Option ℚ
  disbursement_date : Option String
  entity_id : Option String
deriving DecidableEq, Repr

/-- Screening result row (queries.ts lines 80-90). -/
structure ScreeningResult where
  entity_name : Option String
  screened_name : String
  list_name : Option String
  source : String
  match_type : String
  created_at : String
deriving DecidableEq, Repr

/-- Knowledge-base node: the classifier reads entity_id and bridge_score
off a Record of string to unknown. -/
structure KbNode where
  entity_id : Option String
  bridge_score : Option ℚ
deriving DecidableEq, Repr

/-- ClassificationInput, story-classifier.ts lines 32-40. -/
structure ClassificationInput where
  signals : List Signal
  investigations : List MmixEntry
  relationships : List Relationship
  entities : List Entity
  disbursements : List FecDisbursement
  screenings : List ScreeningResult
  kbNodes : List KbNode
deriving DecidableEq, Repr

/-! ### JS semantics helpers -/

/-- JS (x || d) on a possibly-missing string: null/undefined and the empty
string are falsy. -/
def jsOrStr (o : Option String) (d : String) : String :=
  match o with
  | some s => if s = "" then d else s
  | none => d

/-- JS Number(x || d) on a possibly-missing number: null/undefined and 0 are
falsy (so 0 falls through to the default). -/
def jsOrNum (o : Option ℚ) (d : ℚ) : ℚ :=
  match o with
  | some q => if q = 0 then d else q
  | none => d

/-- JS truthiness of a possibly-missing string, as used in guards like
if (d.entity_id): null/undefined and the empty string are falsy. -/
def jsTruthy (o : Option String) : Option String :=
  match o with
  | some s => if s = "" then none else some s
  | none => none

/-- JS String.prototype.includes: substring containment, case-sensitive. -/
def jsIncludes (s sub : String) : Bool :=
  decide (sub.data <:+: s.data)

/-- JS String.prototype.toUpperCase, character by character. -/
def jsToUpper (s : String) : String :=
  String.mk (s.data.map Char.toUpper)

/-- JS String.prototype.trim: strip whitespace from both ends. -/
def jsTrim (s : String) : String :=
  String.mk (((s.data.dropWhile Char.isWhitespace).reverse.dropWhile
    Char.isWhitespace).reverse)

/-- JS String.prototype.slice(0, n): the first n characters. -/
def jsSlice (s : String) (n : ℕ) : String :=
  String.mk (s.data.take n)

/-- JS Math.round: round half toward positive infinity. -/
def jsRound (q : ℚ) : ℤ :=
  ⌊q + 1 / 2⌋

/-- Plain decimal rendering of a rational (stands in for the JS
locale-dependent number rendering; no verified property reads it). -/
def ratToStr (q : ℚ) : String :=
  if q.den = 1 then toString q.num else toString q.num ++ "/" ++ toString q.den

/-- JS Number.prototype.toFixed(1), modeled by rounding to one decimal. -/
def ratToFixed1 (q : ℚ) : String :=
  let t : ℤ := ⌊q * 10 + 1 / 2⌋
  toString (t / 10) ++ "." ++ toString (t % 10)

/-- formatMoney, story-classifier.ts lines 42-46. -/
def formatMoney (n : ℚ) : String :=
  if 1000000 ≤ n then "$" ++ ratToFixed1 (n / 1000000) ++ "M"
  else if 1000 ≤ n then "$" ++ toString (jsRound (n / 1000)) ++ "k"
  else "$" ++ ratToStr n

/-- Larger of two strings in codepoint order (models picking the lexically
latest date string via the descending sort at the date: fields). -/
def jsMaxStr (a b : String) : String :=
  if a < b then b else a

/-- JS Math.max over a list of rationals; the empty case is unreachable at
the one call site (clusters have at least 3 members). -/
def jsMaxList (l : List ℚ) : ℚ :=
  match l with
  | [] => 0
  | h :: t => t.foldl max h

/-! ### JS Map/Set modeling: insertion-ordered association lists -/

/-- First-occurrence deduplication, the semantics of building a JS Set by
iterating and inserting (also of the spread [...new Set(xs)]). -/
def dedupFirst {α : Type} [DecidableEq α] (l : List α) : List α :=
  l.foldl (fun acc x => if x ∈ acc then acc else acc ++ [x]) []

/-- Grouping the elements of a list by a string key, preserving first-key
insertion order — the semantics of the recurring JS idiom
if (!m.has(k)) m.set(k, []); m.get(k).push(x).
Written in the closed group-then-collect form; the foldl characterization
is proved below (groupByKey_eq_foldl). -/
def groupByKey {α : Type} [DecidableEq α] (key : α → String) (xs : List α) :
    List (String × List α) :=
  (dedupFirst (xs.map key)).map (fun k => (k, xs.filter (fun x => key x = k)))

/-- Insert a key with a default value if absent (JS if (!m.has(k)) m.set(k,v)). -/
def setIfAbsent {β : Type} (l : List (String × β)) (k : String) (v : β) :
    List (String × β) :=
  if k ∈ l.map Prod.fst then l else l ++ [(k, v)]

/-- Modify the value at a key in place (JS mutation of m.get(k)). -/
def modifyA {β : Type} (l : List (String × β)) (k : String) (f : β → β) :
    List (String × β) :=
  l.map (fun p => if p.1 = k then (k, f p.2) else p)

/-- Association-list lookup by key (JS m.get(k)). -/
def getA {β : Type} (l : List (String × β)) (k : String) : Option β :=
  (l.find? (fun p => p.1 = k)).map Prod.snd

/-! ### Entity name resolver, story-classifier.ts lines 50-54 -/

/-- Lookup in the entityMap built by new Map(entities.map(e => [e.id, e])):
for duplicate ids the later row wins (JS Map construction overwrites). -/
def lookupEntity (data : ClassificationInput) (id : String) : Option Entity :=
  data.entities.reverse.find? (fun e => e.id = id)

/-- entityName closure, story-classifier.ts lines 52-54, at the call sites
that pass a non-null id: resolved canonical name, else the id truncated to
12 characters. -/
def entityName (data : ClassificationInput) (id : String) : String :=
  match lookupEntity data id with
  | some e => e.canonical_name
  | none => jsSlice id 12

/-! ### Detector 1: vendor siphoning, story-classifier.ts lines 115-207 -/

/-- Stoplist of generic recipient names, line 128. -/
def genericVendorNames : List String :=
  ["AGENCY", "UNKNOWN", "N/A", "NONE", "UNKNOWN RECIPIENT", "MISC", "OTHER", ""]

/-- Normalized vendor key of a disbursement, line 130:
(d.recipient_name || '').toUpperCase().trim(). -/
def normVendorName (d : FecDisbursement) : String :=
  jsTrim (jsToUpper (jsOrStr d.recipient_name ""))

/-- Filter of line 131: skip empty, shorter than 3 characters, or stoplisted. -/
def vendorKeyOk (v : String) : Bool :=
  decide (¬ (v = "" ∨ v.length < 3 ∨ v ∈ genericVendorNames))

/-- Committee key of a disbursement, line 136:
(d.committee_id || d.committee_name || '').trim() || 'unknown'. -/
def committeeKeyOf (d : FecDisbursement) : String :=
  let t := jsTrim (jsOrStr d.committee_id (jsOrStr d.committee_name ""))
  if t = "" then "unknown" else t

/-- Entity-level payer aggregate per vendor (name, accumulated amount, the
committee label recorded at first insertion), lines 139-149. -/
structure EntityAgg where
  name : String
  amount : ℚ
  committee : String
deriving DecidableEq, Repr

/-- Committee-level payer aggregate per vendor, lines 136-138. -/
structure CommAgg where
  name : String
  amount : ℚ
deriving DecidableEq, Repr

/-- Amount of a disbursement with the || 0 default of lines 134, 138, 148. -/
def disbAmt (d : FecDisbursement) : ℚ :=
  jsOrNum d.disbursement_amount 0

/-- Total disbursed to one vendor group, line 134 accumulation. -/
def vendorGroupTotal (g : List FecDisbursement) : ℚ :=
  (g.map disbAmt).sum

/-- Entity-level payer map of one vendor group, lines 139-149: keyed by
truthy entity_id in first-occurrence order; amount accumulated over all of
the group's rows with that id; committee label from the first such row. -/
def payerEntityList (data : ClassificationInput) (g : List FecDisbursement) :
    List (String × EntityAgg) :=
  (dedupFirst (g.filterMap (fun d => jsTruthy d.entity_id))).map (fun id =>
    (id,
      { name := entityName data id
        amount := ((g.filter (fun d => jsTruthy d.entity_id = some id)).map disbAmt).sum
        committee :=
          jsOrStr ((g.find? (fun d => jsTruthy d.entity_id = some id)).bind
            (fun d => d.committee_name)) "" }))

/-- Committee-level payer map of one vendor group, lines 136-138: keyed by
committee key in first-occurrence order. -/
def payerCommitteeList (g : List FecDisbursement) : List (String × CommAgg) :=
  (dedupFirst (g.map committeeKeyOf)).map (fun k =>
    (k,
      { name :=
          jsOrStr ((g.find? (fun d => committeeKeyOf d = k)).bind
            (fun d => d.committee_name)) k
        amount := ((g.filter (fun d => committeeKeyOf d = k)).map disbAmt).sum }))

/-- Lexically latest disbursement date of a group (the descending sort at
lines 179/201 followed by taking the first element). -/
def latestDate (g : List FecDisbursement) : String :=
  g.foldl (fun acc d => jsMaxStr acc (jsOrStr d.disbursement_date "")) ""

/-- Entity-level vendor-siphoning story, lines 161-182. -/
def siphonEntityStory (data : ClassificationInput) (vendor : String)
    (g : List FecDisbursement) : ClassifiedStory :=
  let total := vendorGroupTotal g
  let entityList := List.insertionSort
    (fun a b : String × EntityAgg => b.2.amount ≤ a.2.amount) (payerEntityList data g)
  let nEntities := (payerEntityList data g).length
  { id := "siphon-" ++ jsSlice vendor 20
    pattern := "VENDOR_SIPHONING"
    severity := if 5 ≤ nEntities then .critical
      else if 200000 ≤ total then .high else .medium
    headline := vendor ++ " received campaign funds from " ++
      toString nEntities ++ " different politicians"
    narrative := "The vendor " ++ vendor ++ " collected " ++
      formatMoney total ++ " from separate political campaigns."
    entities := entityList.map (fun p =>
      { id := p.1, name := p.2.name
        role := "Paid " ++ formatMoney p.2.amount ++ " via " ++ p.2.committee })
    evidence :=
      [{ kind := "FEC Disbursements"
         description := toString g.length ++ " payments totaling " ++ formatMoney total },
       { kind := "Network Size"
         description := toString nEntities ++ " distinct political campaigns involved" }]
    totalMoney := total
    date := latestDate g
    networkSize := nEntities
    sourceCount := 1 }

/-- Committee-level vendor-siphoning story, lines 183-205. -/
def siphonCommitteeStory (data : ClassificationInput) (vendor : String)
    (g : List FecDisbursement) : ClassifiedStory :=
  let total := vendorGroupTotal g
  let committeeList := List.insertionSort
    (fun a b : String × CommAgg => b.2.amount ≤ a.2.amount) (payerCommitteeList g)
  let nCommittees := (payerCommitteeList g).length
  { id := "siphon-" ++ jsSlice vendor 20
    pattern := "VENDOR_SIPHONING"
    severity := if 5 ≤ nCommittees then .critical
      else if 200000 ≤ total then .high else .medium
    headline := vendor ++ " received campaign funds from " ++
      toString nCommittees ++ " different committees"
    narrative := "The vendor " ++ vendor ++ " collected " ++
      formatMoney total ++ " from separate committees."
    entities := committeeList.map (fun p =>
      { id := p.1, name := p.2.name
        role := "Paid " ++ formatMoney p.2.amount })
    evidence :=
      [{ kind := "FEC Disbursements"
         description := toString g.length ++ " payments totaling " ++ formatMoney total },
       { kind := "Network Size"
         description := toString nCommittees ++ " distinct committees involved" }]
    totalMoney := total
    date := latestDate g
    networkSize := nCommittees
    sourceCount := 1 }

/-- Story emitted for one vendor group, the loop body of lines 155-206:
entity-level grouping when distinct paying entities are at least 3 and the
total at least 50000; otherwise committee-level grouping when distinct
committees are at least 3 and the total at least 20000; otherwise nothing. -/
def siphonStoryFor (data : ClassificationInput) (vendor : String)
    (g : List FecDisbursement) : Option ClassifiedStory :=
  if 3 ≤ (payerEntityList data g).length ∧ 50000 ≤ vendorGroupTotal g then
    some (siphonEntityStory data vendor g)
  else if 3 ≤ (payerCommitteeList g).length ∧ 20000 ≤ vendorGroupTotal g then
    some (siphonCommitteeStory data vendor g)
  else none

/-- Vendor map, lines 121-150: disbursements that pass the line-131 filter,
grouped by normalized vendor name in insertion order. -/
def vendorMapOf (data : ClassificationInput) : List (String × List FecDisbursement) :=
  groupByKey normVendorName
    (data.disbursements.filter (fun d => vendorKeyOk (normVendorName d)))

/-- Vendor-siphoning stories paired with their vendor key. -/
def siphonPairs (data : ClassificationInput) : List (String × ClassifiedStory) :=
  (vendorMapOf data).filterMap (fun p =>
    (siphonStoryFor data p.1 p.2).map (fun s => (p.1, s)))

/-- detectVendorSiphoning, lines 115-207. -/
def detectVendorSiphoning (data : ClassificationInput) : List ClassifiedStory :=
  (vendorMapOf data).filterMap (fun p => siphonStoryFor data p.1 p.2)

/-! ### Detector 2: cross-campaign networks, lines 209-262 -/

/-- Vendor key of a cross-campaign signal, line 227:
String(d?.vendor || d?.recipient || 'unknown'). -/
def crossVendorOf (s : Signal) : String :=
  jsOrStr s.details.vendor (jsOrStr s.details.recipient "unknown")

/-- Amount contributed by one signal, line 234:
Number(d?.total_amount || d?.amount || 0). -/
def crossAmt (s : Signal) : ℚ :=
  jsOrNum s.details.total_amount (jsOrNum s.details.amount 0)

/-- Distinct truthy entity ids of a vendor network, line 233. -/
def crossEntityIds (sigs : List Signal) : List String :=
  dedupFirst (sigs.filterMap (fun s => jsTruthy (some s.entity_id)))

/-- Story for one cross-campaign vendor network, lines 241-260. -/
def mkCrossStory (data : ClassificationInput) (vendor : String)
    (sigs : List Signal) : ClassifiedStory :=
  let entityIds := crossEntityIds sigs
  let totalAmount := (sigs.map crossAmt).sum
  { id := "crosscampaign-" ++ jsSlice vendor 20
    pattern := "CROSS_CAMPAIGN_NETWORK"
    severity := if 4 ≤ entityIds.length then .high else .medium
    headline := toString entityIds.length ++ " campaigns share vendor " ++ vendor
    narrative := "Cross-campaign vendor sharing at scale " ++
      formatMoney totalAmount ++ " warrants scrutiny."
    entities := entityIds.map (fun id =>
      { id := id, name := entityName data id
        role := "Campaign paying shared vendor" })
    evidence := sigs.map (fun s =>
      { kind := "Cross-Campaign Signal"
        description := jsOrStr s.details.description
          (entityName data s.entity_id ++ " → " ++ vendor) })
    totalMoney := totalAmount
    date := jsOrStr ((sigs.head?).map (fun s => s.detected_at)) ""
    networkSize := entityIds.length
    sourceCount := 1 }

/-- Signals of type CROSS_CAMPAIGN, line 214. -/
def crossSignalsOf (data : ClassificationInput) : List Signal :=
  data.signals.filter (fun s => s.signal_type = "CROSS_CAMPAIGN")

/-- detectCrossCampaignNetworks, lines 209-262. -/
def detectCrossCampaignNetworks (data : ClassificationInput) : List ClassifiedStory :=
  if (crossSignalsOf data).length = 0 then []
  else
    (groupByKey crossVendorOf (crossSignalsOf data)).filterMap (fun p =>
      if (crossEntityIds p.2).length < 2 then none
      else some (mkCrossStory data p.1 p.2))

/-! ### Detector 3: revolving door, lines 264-310 -/

/-- Recognized lobbying-disclosure source tags, lines 272-273. -/
def ldaSourceOk (src : String) : Bool :=
  src = "Senate LDA" ∨ src = "senate_lda" ∨ src = "LDA"

/-- Lobbyist list of a finding when the detail field is truthy, line 274/278. -/
def findingLobbyists (f : Finding) : Option (List Lobbyist) :=
  f.detail.bind (fun dt => dt.revolving_door_lobbyists)

/-- Story for one qualifying LDA finding, lines 282-307. -/
def mkRevolvingStory (data : ClassificationInput) (inv : MmixEntry)
    (f : Finding) : ClassifiedStory :=
  let lobbyists := (findingLobbyists f).getD []
  let name := if inv.entity_name = "" then entityName data inv.entity_id
    else inv.entity_name
  { id := "revolving-" ++ inv.entity_id ++ "-" ++
      jsSlice (lobbyists.headD { name := "", covered_position := "" }).name 10
    pattern := "REVOLVING_DOOR"
    severity := if 3 ≤ lobbyists.length then .high else .medium
    headline := toString lobbyists.length ++
      " former government officials now lobby for " ++ name
    narrative := "Senate lobbying disclosures reveal revolving-door lobbyists for " ++
      name ++ "."
    entities :=
      { id := inv.entity_id, name := name, role := "Lobbying registrant/client" } ::
      (lobbyists.take 5).map (fun l =>
        { id := "", name := l.name, role := "Former: " ++ l.covered_position })
    evidence :=
      { kind := "Senate LDA Filing", description := f.summary } ::
      (lobbyists.take 3).map (fun l =>
        { kind := "Revolving Door"
          description := l.name ++ " — previously " ++ l.covered_position })
    totalMoney := 0
    date := inv.entered_at
    networkSize := lobbyists.length + 1
    sourceCount := 1 }

/-- Per-finding step of lines 277-308: skip findings whose lobbyist list is
empty. -/
def revolvingStoryFor (data : ClassificationInput) (inv : MmixEntry)
    (f : Finding) : Option ClassifiedStory :=
  if ((findingLobbyists f).getD []).length = 0 then none
  else some (mkRevolvingStory data inv f)

/-- detectRevolvingDoor, lines 264-310. -/
def detectRevolvingDoor (data : ClassificationInput) : List ClassifiedStory :=
  (data.investigations.map (fun inv =>
    (inv.findings.filter (fun f => ldaSourceOk f.source ∧ (findingLobbyists f).isSome)
      ).filterMap (fun f => revolvingStoryFor data inv f))).flatten

/-! ### Detector 4: family payments, lines 312-353 -/

/-- Story for one family-payment entity group, lines 327-352. -/
def mkFamilyStory (data : ClassificationInput) (p : String × List Signal) :
    ClassifiedStory :=
  let eid := p.1
  let sigs := p.2
  let totalAmount := (sigs.map (fun s => jsOrNum s.details.amount 0)).sum
  let name := entityName data eid
  let recipients := sigs.map (fun s => jsOrStr s.details.recipient "unknown")
  let uniqueRecipients := dedupFirst recipients
  { id := "family-" ++ eid
    pattern := "FAMILY_PAYMENTS"
    severity := if 100000 ≤ totalAmount then .high else .medium
    headline := name ++ " campaign paid " ++ formatMoney totalAmount ++
      " to family-connected entities"
    narrative := "FEC records show payments from the campaign committee of " ++
      name ++ " to family-connected recipients."
    entities :=
      { id := eid, name := name, role := "Politician making payments" } ::
      uniqueRecipients.map (fun r =>
        { id := "", name := r, role := "Family-connected recipient" })
    evidence := sigs.map (fun s =>
      { kind := "FEC Spouse Payment"
        description := jsOrStr s.details.description
          ("Payment to " ++ (s.details.recipient).getD "undefined") })
    totalMoney := totalAmount
    date := jsOrStr ((sigs.head?).map (fun s => s.detected_at)) ""
    networkSize := uniqueRecipients.length + 1
    sourceCount := 1 }

/-- Signals of type FEC_SPOUSE_PAYMENT, line 317. -/
def spousalSignalsOf (data : ClassificationInput) : List Signal :=
  data.signals.filter (fun s => s.signal_type = "FEC_SPOUSE_PAYMENT")

/-- detectFamilyPayments, lines 312-353. -/
def detectFamilyPayments (data : ClassificationInput) : List ClassifiedStory :=
  if (spousalSignalsOf data).length = 0 then []
  else (groupByKey (fun s => s.entity_id) (spousalSignalsOf data)).map (mkFamilyStory data)

/-! ### Detector 5: sanctions flags, lines 355-389 -/

/-- Watchlist label of one screening row, lines 371/375/380:
r.list_name || r.source. -/
def screeningList (r : ScreeningResult) : String :=
  jsOrStr r.list_name r.source

/-- Screening groups keyed by entity_name || 'unknown', lines 362-368. -/
def screeningGroups (data : ClassificationInput) :
    List (String × List ScreeningResult) :=
  groupByKey (fun s => jsOrStr s.entity_name "unknown") data.screenings

/-- Story for one screening group, lines 370-388. -/
def mkSanctionsStory (p : String × List ScreeningResult) : ClassifiedStory :=
  let name := p.1
  let results := p.2
  let lists := dedupFirst (results.map screeningList)
  { id := "sanctions-" ++ jsSlice name 20
    pattern := "SANCTIONS_FLAG"
    severity := if lists.any (fun l =>
        jsIncludes l "SDN" || jsIncludes l "OFAC" || jsIncludes l "Sanctions")
      then .critical else .high
    headline := name ++ " flagged on " ++ toString lists.length ++ " watchlists"
    narrative := "Screening of " ++ name ++ " returned " ++
      toString results.length ++ " matches across watchlists."
    entities := [{ id := "", name := name, role := "Screened entity" }]
    evidence := results.map (fun r =>
      { kind := screeningList r
        description := "Matched " ++ r.screened_name ++ " (" ++ r.match_type ++ ")" })
    totalMoney := 0
    date := jsOrStr ((results.head?).map (fun r => r.created_at)) ""
    networkSize := 1
    sourceCount := lists.length }

/-- detectSanctionsFlags, lines 355-389. -/
def detectSanctionsFlags (data : ClassificationInput) : List ClassifiedStory :=
  if data.screenings.length = 0 then []
  else (screeningGroups data).map mkSanctionsStory

/-! ### Detector 6: high-volume pass-through, lines 391-434 -/

/-- Total amount of one high-volume entity group, line 408. -/
def hvTotal (sigs : List Signal) : ℚ :=
  (sigs.map (fun s => jsOrNum s.details.total_amount 0)).sum

/-- Story for one high-volume entity group, lines 414-432. -/
def mkHighVolStory (data : ClassificationInput) (p : String × List Signal) :
    ClassifiedStory :=
  let eid := p.1
  let sigs := p.2
  let name := entityName data eid
  let totalAmount := hvTotal sigs
  let paymentCount := (sigs.map (fun s => jsOrNum s.details.payment_count 0)).sum
  let vendors := dedupFirst (sigs.map (fun s =>
    jsOrStr s.details.vendor (jsOrStr s.details.recipient "unknown")))
  { id := "highvol-" ++ eid
    pattern := "HIGH_VOLUME_PASS_THROUGH"
    severity := if 500000 ≤ totalAmount then .high else .medium
    headline := name ++ " made " ++ ratToStr paymentCount ++
      " high-volume payments totaling " ++ formatMoney totalAmount
    narrative := "High-volume disbursement patterns flagged for " ++ name ++ "."
    entities :=
      { id := eid, name := name, role := "High-volume disburser" } ::
      (vendors.take 5).map (fun v =>
        { id := "", name := v, role := "Payment recipient" })
    evidence := sigs.map (fun s =>
      { kind := "High Volume Signal"
        description := jsOrStr s.details.description
          (ratToStr (jsOrNum s.details.payment_count 0) ++ " payments") })
    totalMoney := totalAmount
    date := jsOrStr ((sigs.head?).map (fun s => s.detected_at)) ""
    networkSize := vendors.length + 1
    sourceCount := 1 }

/-- Signals of type FEC_HIGH_VOLUME, line 396. -/
def hvSignalsOf (data : ClassificationInput) : List Signal :=
  data.signals.filter (fun s => s.signal_type = "FEC_HIGH_VOLUME")

/-- detectHighVolumePassThrough, lines 391-434. -/
def detectHighVolumePassThrough (data : ClassificationInput) : List ClassifiedStory :=
  (groupByKey (fun s => s.entity_id) (hvSignalsOf data)).filterMap (fun p =>
    if hvTotal p.2 < 50000 then none
    else some (mkHighVolStory data p))

/-! ### Detector 7: dark-money clusters, lines 436-524 -/

/-- Add a neighbor to a key's adjacency set (JS adj.get(k).add(n)); the
neighbor list models a Set, so it is extended only when the element is new. -/
def addNbr (adj : List (String × List String)) (k n : String) :
    List (String × List String) :=
  modifyA adj k (fun s => if n ∈ s then s else s ++ [n])

/-- One step of the adjacency construction, lines 446-451: ensure both
endpoints are keys, then link them in both directions. -/
def adjStep (adj : List (String × List String)) (r : Relationship) :
    List (String × List String) :=
  let adj := setIfAbsent adj r.source_entity_id []
  let adj := setIfAbsent adj r.target_entity_id []
  let adj := addNbr adj r.source_entity_id r.target_entity_id
  addNbr adj r.target_entity_id r.source_entity_id

/-- Undirected adjacency structure over all relationship rows of the
snapshot, lines 445-451.  Note the source builds it from every relationship
in the input; it does not test the is_current flag. -/
def adjOf (rels : List Relationship) : List (String × List String) :=
  rels.foldl adjStep []

/-- Neighbor set of a key (JS adj.get(cur) || []). -/
def adjGet (adj : List (String × List String)) (k : String) : List String :=
  (getA adj k).getD []

/-- Bridge-score accumulation step, lines 455-459: record positive scores
for truthy entity ids; a JS Map.set overwrites an existing binding. -/
def bridgeStep (m : List (String × ℚ)) (node : KbNode) : List (String × ℚ) :=
  let eid := jsOrStr node.entity_id ""
  let score := jsOrNum node.bridge_score 0
  if eid ≠ "" ∧ 0 < score then
    if eid ∈ m.map Prod.fst then modifyA m eid (fun _ => score) else m ++ [(eid, score)]
  else m

/-- Bridge-score map from kb_nodes, lines 454-459. -/
def bridgeScoresOf (nodes : List KbNode) : List (String × ℚ) :=
  nodes.foldl bridgeStep []

/-- Bridge score of an entity with the || 0 default of lines 489-492. -/
def bridgeGet (m : List (String × ℚ)) (id : String) : ℚ :=
  (getA m id).getD 0

/-- Filtering by a stronger predicate never yields a longer list
(termination measure helper). -/
theorem length_filter_le_of_stronger {α : Type} (p q : α → Bool)
    (himp : ∀ x, q x = true → p x = true) :
    ∀ l : List α, (l.filter q).length ≤ (l.filter p).length := by
  intro l
  induction l with
  | nil => simp
  | cons a t ih =>
    rw [List.filter_cons, List.filter_cons]
    cases hq : q a
    · cases hp : p a <;> simp <;> omega
    · have hp := himp a hq
      rw [hp]
      simp only [if_true, List.length_cons]
      omega

/-- Filtering by a strictly stronger predicate that loses a member of the
list yields a strictly shorter result (termination measure helper). -/
theorem length_filter_lt_of_stronger {α : Type} (l : List α) (p q : α → Bool)
    (himp : ∀ x, q x = true → p x = true) :
    ∀ x, x ∈ l → p x = true → q x = false →
      (l.filter q).length < (l.filter p).length := by
  induction l with
  | nil => intro x hx; simp at hx
  | cons a t ih =>
    intro x hx hpx hqx
    rcases List.mem_cons.mp hx with rfl | hxt
    · rw [List.filter_cons, List.filter_cons, hpx, hqx]
      simp only [if_true, List.length_cons]
      have := length_filter_le_of_stronger p q himp t
      have hnotq : (if (false = true) then x :: t.filter q else t.filter q) = t.filter q := by
        simp
      rw [hnotq]
      omega
    · rw [List.filter_cons, List.filter_cons]
      have hlt := ih x hxt hpx hqx
      cases hq : q a
      · have hqif : (if (false = true) then a :: t.filter q else t.filter q) = t.filter q := by
          simp
        rw [hqif]
        cases hp : p a
        · have hpif : (if (false = true) then a :: t.filter p else t.filter p) = t.filter p := by
            simp
          rw [hpif]
          exact hlt
        · simp only [if_true, List.length_cons]
          omega
      · have hp := himp a hq
        rw [hp]
        simp only [if_true, List.length_cons]
        omega

/-- Iterative traversal of one connected component, the while loop of lines
467-476.  The JS work list is an array popped from the end; it is modeled
head-first, so pushing the filtered neighbor list appends its reverse. -/
def explore (adj : List (String × List String)) :
    List String → List String → List String → List String × List String
  | visited, cluster, [] => (cluster, visited)
  | visited, cluster, cur :: rest =>
    if h : cur ∈ visited then explore adj visited cluster rest
    else
      let visited' := cur :: visited
      let nbrs := (adjGet adj cur).filter (fun n => ¬ n ∈ visited')
      explore adj visited' (cluster ++ [cur]) (nbrs.reverse ++ rest)
  termination_by visited _ queue =>
    (((adj.map Prod.fst).filter (fun v => ¬ v ∈ visited)).length, queue.length)
  decreasing_by
  · apply Prod.Lex.right
    simp
  · by_cases hv : cur ∈ adj.map Prod.fst
    · apply Prod.Lex.left
      apply length_filter_lt_of_stronger (adj.map Prod.fst)
        (fun v => decide (¬ v ∈ visited)) (fun v => decide (¬ v ∈ cur :: visited))
        ?_ cur hv (by simpa using h) (by simp)
      intro x hx
      simp only [decide_eq_true_eq] at hx ⊢
      intro hmem
      exact hx (List.mem_cons_of_mem cur hmem)
    · have hget : adjGet adj cur = [] := by
        unfold adjGet getA
        have : adj.find? (fun p => p.1 = cur) = none := by
          apply List.find?_eq_none.mpr
          intro p hp
          simp only [decide_eq_true_eq]
          intro hc
          exact hv (by simpa [hc] using List.mem_map_of_mem Prod.fst hp)
        simp [this]
      have heq : ((adj.map Prod.fst).filter (fun v => ¬ v ∈ cur :: visited)) =
          ((adj.map Prod.fst).filter (fun v => ¬ v ∈ visited)) := by
        apply List.filter_congr
        intro x hx
        have : x ≠ cur := fun h => hv (h ▸ hx)
        simp [this]
      rw [heq]
      apply Prod.Lex.right
      simp [hget]

/-- Outer component loop, lines 462-478: iterate the keys in insertion
order, explore unvisited ones, and keep components of size at least 3. -/
def findClustersGo (adj : List (String × List String)) :
    List String → List String → List (List String)
  | _, [] => []
  | visited, s :: rest =>
    if s ∈ visited then findClustersGo adj visited rest
    else
      if 3 ≤ (explore adj visited [] [s]).1.length then
        (explore adj visited [] [s]).1 ::
          findClustersGo adj (explore adj visited [] [s]).2 rest
      else findClustersGo adj (explore adj visited [] [s]).2 rest

/-- Clusters (connected components of size at least 3) of the snapshot's
relationship graph, lines 445-478. -/
def clustersOf (data : ClassificationInput) : List (List String) :=
  let adj := adjOf data.relationships
  findClustersGo adj [] (adj.map Prod.fst)

/-- Total disbursement amount per truthy entity id, lines 481-485. -/
def entityDisbursementsOf (ds : List FecDisbursement) : List (String × ℚ) :=
  ds.foldl (fun m d =>
    match jsTruthy d.entity_id with
    | none => m
    | some eid =>
      if eid ∈ m.map Prod.fst then modifyA m eid (fun q => q + disbAmt d)
      else m ++ [(eid, disbAmt d)]) []

/-- Hub selection of lines 490-493: reduce with strict greater-than, so the
first member attaining the maximal bridge score wins. -/
def hubOf (score : String → ℚ) (cluster : List String) : String :=
  cluster.foldl (fun best id => if score best < score id then id else best)
    (cluster.headD "")

/-- Replace every underscore by a space, line 499. -/
def underscoresToSpaces (s : String) : String :=
  String.mk (s.data.map (fun c => if c = '_' then ' ' else c))

/-- Story for one cluster, lines 487-523. -/
def mkClusterStory (data : ClassificationInput) (cluster : List String) :
    ClassifiedStory :=
  let entityDisb := entityDisbursementsOf data.disbursements
  let scores := bridgeScoresOf data.kbNodes
  let score := bridgeGet scores
  let clusterMoney := cluster.foldl (fun sum id => sum + ((getA entityDisb id).getD 0)) 0
  let maxBridge := jsMaxList (cluster.map score)
  let hubEntity := hubOf score cluster
  let clusterRels := data.relationships.filter (fun r =>
    r.source_entity_id ∈ cluster ∧ r.target_entity_id ∈ cluster)
  let relTypes := dedupFirst (clusterRels.map (fun r =>
    underscoresToSpaces r.relationship_type))
  { id := "cluster-" ++ hubEntity
    pattern := "DARK_MONEY_CLUSTER"
    severity := if 5 ≤ cluster.length ∧ 200000 ≤ clusterMoney then .high
      else if 3 ≤ cluster.length then .medium else .info
    headline := "Network of " ++ toString cluster.length ++
      " connected entities centered on " ++ entityName data hubEntity
    narrative := "Graph analysis identified a cluster of interconnected entities; " ++
      "the hub has bridge score " ++ ratToStr maxBridge ++ "."
    entities := cluster.map (fun id =>
      { id := id, name := entityName data id
        role := if id = hubEntity then
            "Hub (bridge score: " ++ ratToStr (score id) ++ ")"
          else "Connected entity" })
    evidence :=
      [{ kind := "Graph Analysis"
         description := toString cluster.length ++ " entities in connected component" },
       { kind := "Relationships"
         description := toString clusterRels.length ++ " active relationships" }] ++
      (if 0 < maxBridge then
        [{ kind := "Bridge Score"
           description := "Hub bridge score: " ++ ratToStr maxBridge }]
       else [])
    totalMoney := clusterMoney
    date := ""
    networkSize := cluster.length
    sourceCount := relTypes.length }

/-- detectDarkMoneyClusters, lines 436-524: skips entirely when the
snapshot has fewer than 2 relationships. -/
def detectDarkMoneyClusters (data : ClassificationInput) : List ClassifiedStory :=
  if data.relationships.length < 2 then []
  else (clustersOf data).map (mkClusterStory data)

/-! ### Detector 8: investigation findings, lines 526-567 -/

/-- Human-readable source label, lines 569-591. -/
def formatSourceLabel (source : String) : String :=
  if source = "fec" then "FEC Campaign Finance"
  else if source = "courtlistener" then "Court Records"
  else if source = "usaspending" then "Federal Contracts"
  else if source = "usaspending_grants" then "Federal Grants"
  else if source = "propublica_990" then "Nonprofit Tax Returns"
  else if source = "sec_edgar" then "SEC Filings"
  else if source = "opencorporates" then "Corporate Registry"
  else if source = "sam_gov" then "SAM.gov"
  else if source = "house_disclosures" then "Financial Disclosures"
  else if source = "irs_exempt_orgs" then "IRS Exempt Orgs"
  else if source = "wikidata_family" then "Family Connections"
  else if source = "Senate LDA" then "Senate Lobbying"
  else if source = "OFAC SDN" then "OFAC Sanctions"
  else if source = "Federal Register" then "Federal Register"
  else if source = "senate_lda" then "Senate Lobbying"
  else if source = "opensanctions" then "Sanctions Screening"
  else if source = "federal_register" then "Federal Register"
  else if source = "LDA" then "Senate Lobbying"
  else underscoresToSpaces source

/-- Suppression test of lines 540-542: some already-emitted story of a
different pattern references the entity id. -/
def alreadyCovered (stories : List ClassifiedStory) (eid : String) : Bool :=
  stories.any (fun s =>
    s.entities.any (fun e => e.id = eid) && s.pattern ≠ "INVESTIGATION_FINDINGS")

/-- Story for one investigation, lines 550-565. -/
def mkInvStory (data : ClassificationInput) (inv : MmixEntry) : ClassifiedStory :=
  let findings := inv.findings
  let name := if inv.entity_name = "" then entityName data inv.entity_id
    else inv.entity_name
  let sources := dedupFirst (findings.map (fun f => f.source))
  let entityMoney :=
    ((data.disbursements.filter (fun d => d.entity_id = some inv.entity_id)).map
      disbAmt).sum
  { id := "inv-" ++ inv.id
    pattern := "INVESTIGATION_FINDINGS"
    severity := if 6 ≤ findings.length then .high
      else if 3 ≤ findings.length then .medium else .info
    headline := name ++ ": " ++ toString findings.length ++ " findings across " ++
      toString sources.length ++ " federal databases"
    narrative := "Automated investigation of " ++ name ++ " returned " ++
      toString findings.length ++ " notable findings."
    entities := [{ id := inv.entity_id, name := name
                   role := if inv.status = "active" then "Under active investigation"
                     else inv.status }]
    evidence := findings.map (fun f =>
      { kind := formatSourceLabel f.source, description := f.summary })
    totalMoney := entityMoney
    date := inv.entered_at
    networkSize := 1
    sourceCount := sources.length }

/-- Loop of lines 531-566, carrying the shared accumulated story list (the
detector pushes onto the same array it inspects). -/
def invGo (data : ClassificationInput) (acc : List ClassifiedStory) :
    List MmixEntry → List ClassifiedStory
  | [] => []
  | inv :: rest =>
    if inv.findings.length < 2 then invGo data acc rest
    else if alreadyCovered acc inv.entity_id then invGo data acc rest
    else
      let s := mkInvStory data inv
      s :: invGo data (acc ++ [s]) rest

/-- detectInvestigationStories, lines 526-567; prior is the story list
accumulated by the seven earlier detectors. -/
def detectInvestigationStories (data : ClassificationInput)
    (prior : List ClassifiedStory) : List ClassifiedStory :=
  invGo data prior data.investigations

/-! ### Fallback and orchestration, lines 48-111 -/

/-- Fallback informational story, lines 83-99. -/
def dataLoadedStory (data : ClassificationInput) : ClassifiedStory :=
  let totalDisb := (data.disbursements.map disbAmt).sum
  { id := "data-loaded"
    pattern := "DATA_LOADED"
    severity := .info
    headline := "Data loaded; no patterns above threshold yet"
    narrative := "Ralph has loaded entities, disbursements and signals; " ++
      "no high-confidence patterns matched yet."
    entities := []
    evidence :=
      [{ kind := "Entities", description := toString data.entities.length ++ " entities" },
       { kind := "Disbursements"
         description := toString data.disbursements.length ++ " payments, " ++
           formatMoney totalDisb ++ " total" },
       { kind := "Signals", description := toString data.signals.length ++ " signals" }]
    totalMoney := totalDisb
    date := ""
    networkSize := 0
    sourceCount := 1 }

/-- Output of the first seven detectors in call order, lines 56-75. -/
def preInvestigationStories (data : ClassificationInput) : List ClassifiedStory :=
  detectVendorSiphoning data ++
  detectCrossCampaignNetworks data ++
  detectRevolvingDoor data ++
  detectFamilyPayments data ++
  detectSanctionsFlags data ++
  detectHighVolumePassThrough data ++
  detectDarkMoneyClusters data

/-- Combined output of the eight detectors in call order, lines 56-78; the
investigation-findings detector runs last and reads the accumulated list. -/
def allDetectorStories (data : ClassificationInput) : List ClassifiedStory :=
  preInvestigationStories data ++
    detectInvestigationStories data (preInvestigationStories data)

/-- Final comparison relation of lines 102-108: ascending severity rank,
ties broken by descending totalMoney.  a ≼ b holds exactly when the JS
comparator returns a non-positive number on (a, b). -/
def storyLE (a b : ClassifiedStory) : Prop :=
  severityOrder a.severity < severityOrder b.severity ∨
    (severityOrder a.severity = severityOrder b.severity ∧ b.totalMoney ≤ a.totalMoney)

instance : DecidableRel storyLE := fun a b => by
  unfold storyLE
  exact inferInstance

/-- Detector output with the fallback rule of lines 81-100 applied. -/
def storiesWithFallback (data : ClassificationInput) : List ClassifiedStory :=
  if (allDetectorStories data).length = 0 ∧
      (0 < data.disbursements.length ∨ 0 < data.entities.length ∨
        0 < data.signals.length) then
    allDetectorStories data ++ [dataLoadedStory data]
  else allDetectorStories data

/-- classifyStories, lines 48-111.  JS Array.prototype.sort with a
consistent comparator produces the unique stable sorted order, modeled by
insertionSort over storyLE. -/
def classifyStories (data : ClassificationInput) : List ClassifiedStory :=
  List.insertionSort storyLE (storiesWithFallback data)

/-! ## Generic lemmas about the JS-semantics helpers -/

theorem dedupFirst_go_nodup {α : Type} [DecidableEq α] (l acc : List α)
    (hacc : acc.Nodup) :
    (l.foldl (fun acc x => if x ∈ acc then acc else acc ++ [x]) acc).Nodup := by
  induction l generalizing acc with
  | nil => simpa using hacc
  | cons a t ih =>
    simp only [List.foldl_cons]
    by_cases h : a ∈ acc
    · rw [if_pos h]
      exact ih acc hacc
    · rw [if_neg h]
      apply ih
      simp [List.nodup_append, hacc, h]

theorem dedupFirst_go_mem {α : Type} [DecidableEq α] (l : List α) :
    ∀ acc x, x ∈ l.foldl (fun acc x => if x ∈ acc then acc else acc ++ [x]) acc ↔
      x ∈ acc ∨ x ∈ l := by
  induction l with
  | nil => intro acc x; simp
  | cons a t ih =>
    intro acc x
    simp only [List.foldl_cons]
    by_cases h : a ∈ acc
    · rw [if_pos h, ih]
      constructor
      · rintro (hx | hx)
        · exact Or.inl hx
        · exact Or.inr (List.mem_cons_of_mem a hx)
      · rintro (hx | hx)
        · exact Or.inl hx
        · rcases List.mem_cons.mp hx with rfl | hx
          · exact Or.inl h
          · exact Or.inr hx
    · rw [if_neg h, ih]
      simp only [List.mem_append, List.mem_singleton, List.mem_cons]
      tauto

/-- Membership in dedupFirst is membership in the original list. -/
theorem mem_dedupFirst {α : Type} [DecidableEq α] {l : List α} {x : α} :
    x ∈ dedupFirst l ↔ x ∈ l := by
  unfold dedupFirst
  rw [dedupFirst_go_mem]
  simp

/-- dedupFirst has no duplicates. -/
theorem dedupFirst_nodup {α : Type} [DecidableEq α] (l : List α) :
    (dedupFirst l).Nodup :=
  dedupFirst_go_nodup l [] List.nodup_nil

/-- Length of dedupFirst is the number of distinct elements. -/
theorem dedupFirst_length_eq_card {α : Type} [DecidableEq α] (l : List α) :
    (dedupFirst l).length = l.toFinset.card := by
  have h1 : (dedupFirst l).toFinset = l.toFinset := by
    ext x
    simp [List.mem_toFinset, mem_dedupFirst]
  rw [← h1, List.toFinset_card_of_nodup (dedupFirst_nodup l)]

/-- Keys of a groupByKey are distinct. -/
theorem groupByKey_keys_nodup {α : Type} [DecidableEq α] (key : α → String)
    (xs : List α) : ((groupByKey key xs).map Prod.fst).Nodup := by
  unfold groupByKey
  rw [List.map_map]
  have : (Prod.fst ∘ fun k => (k, xs.filter (fun x => key x = k))) = id := by
    funext k
    rfl
  rw [this, List.map_id]
  exact dedupFirst_nodup _

/-- Key membership in a groupByKey. -/
theorem groupByKey_keys_mem {α : Type} [DecidableEq α] (key : α → String)
    (xs : List α) (k : String) :
    k ∈ (groupByKey key xs).map Prod.fst ↔ ∃ x ∈ xs, key x = k := by
  unfold groupByKey
  rw [List.map_map]
  have : (Prod.fst ∘ fun k => (k, xs.filter (fun x => key x = k))) = id := by
    funext k
    rfl
  rw [this, List.map_id, mem_dedupFirst]
  simp

/-- Shape of every groupByKey entry: its key with the sublist of elements
having that key. -/
theorem groupByKey_mem {α : Type} [DecidableEq α] {key : α → String}
    {xs : List α} {p : String × List α} (hp : p ∈ groupByKey key xs) :
    p.2 = xs.filter (fun x => key x = p.1) ∧ (∃ x ∈ xs, key x = p.1) := by
  unfold groupByKey at hp
  rcases List.mem_map.mp hp with ⟨k, hk, rfl⟩
  exact ⟨rfl, by simpa using (mem_dedupFirst.mp hk)⟩

/-! ## Claim C1: final ordering -/

instance : IsTotal ClassifiedStory storyLE := by
  constructor
  intro a b
  unfold storyLE
  rcases lt_trichotomy (severityOrder a.severity) (severityOrder b.severity) with h | h | h
  · exact Or.inl (Or.inl h)
  · rcases le_total b.totalMoney a.totalMoney with hm | hm
    · exact Or.inl (Or.inr ⟨h, hm⟩)
    · exact Or.inr (Or.inr ⟨h.symm, hm⟩)
  · exact Or.inr (Or.inl h)

instance : IsTrans ClassifiedStory storyLE := by
  constructor
  intro a b c hab hbc
  unfold storyLE at *
  rcases hab with h1 | ⟨h1, m1⟩
  · rcases hbc with h2 | ⟨h2, m2⟩
    · exact Or.inl (h1.trans h2)
    · exact Or.inl (h2 ▸ h1)
  · rcases hbc with h2 | ⟨h2, m2⟩
    · exact Or.inl (h1 ▸ h2)
    · exact Or.inr ⟨h1.trans h2, m2.trans m1⟩

/-- The classifier output is insertionSorted, hence pairwise ordered. -/
theorem classifyStories_pairwise (data : ClassificationInput) :
    List.Pairwise storyLE (classifyStories data) := by
  unfold classifyStories
  exact List.sorted_insertionSort storyLE _

/-- C1: for every input snapshot, the list returned by classifyStories is
ordered so that for every adjacent pair (a, b) the severity rank of a is at
most that of b under critical < high < medium < info, and when the ranks are
equal, totalMoney of a is at least totalMoney of b. -/
theorem C1_classifyStories_adjacent_order (data : ClassificationInput) :
    List.Chain'
      (fun a b => severityOrder a.severity ≤ severityOrder b.severity ∧
        (severityOrder a.severity = severityOrder b.severity →
          b.totalMoney ≤ a.totalMoney))
      (classifyStories data) := by
  apply List.Chain'.imp ?_ (List.Pairwise.chain' (classifyStories_pairwise data))
  intro a b hab
  rcases hab with h | ⟨h, hm⟩
  · exact ⟨le_of_lt h, fun he => absurd he (ne_of_lt h)⟩
  · exact ⟨le_of_eq h, fun _ => hm⟩

/-! ## Shape of each detector's stories: fixed pattern tag and id prefix -/

theorem detectVendorSiphoning_shape {data : ClassificationInput}
    {s : ClassifiedStory} (h : s ∈ detectVendorSiphoning data) :
    s.pattern = "VENDOR_SIPHONING" ∧ ∃ t, s.id = "siphon-" ++ t := by
  unfold detectVendorSiphoning at h
  rcases List.mem_filterMap.mp h with ⟨p, _, hsome⟩
  unfold siphonStoryFor at hsome
  by_cases h1 : 3 ≤ (payerEntityList data p.2).length ∧ 50000 ≤ vendorGroupTotal p.2
  · rw [if_pos h1] at hsome
    have hs : siphonEntityStory data p.1 p.2 = s := Option.some.inj hsome
    subst hs
    exact ⟨rfl, jsSlice p.1 20, rfl⟩
  · rw [if_neg h1] at hsome
    by_cases h2 : 3 ≤ (payerCommitteeList p.2).length ∧ 20000 ≤ vendorGroupTotal p.2
    · rw [if_pos h2] at hsome
      have hs : siphonCommitteeStory data p.1 p.2 = s := Option.some.inj hsome
      subst hs
      exact ⟨rfl, jsSlice p.1 20, rfl⟩
    · rw [if_neg h2] at hsome
      cases hsome

theorem detectCrossCampaignNetworks_shape {data : ClassificationInput}
    {s : ClassifiedStory} (h : s ∈ detectCrossCampaignNetworks data) :
    s.pattern = "CROSS_CAMPAIGN_NETWORK" ∧ ∃ t, s.id = "crosscampaign-" ++ t := by
  unfold detectCrossCampaignNetworks at h
  by_cases h0 : (crossSignalsOf data).length = 0
  · rw [if_pos h0] at h
    cases h
  · rw [if_neg h0] at h
    rcases List.mem_filterMap.mp h with ⟨p, _, hsome⟩
    by_cases h1 : (crossEntityIds p.2).length < 2
    · rw [if_pos h1] at hsome
      cases hsome
    · rw [if_neg h1] at hsome
      have hs : mkCrossStory data p.1 p.2 = s := Option.some.inj hsome
      subst hs
      exact ⟨rfl, jsSlice p.1 20, rfl⟩

theorem detectRevolvingDoor_shape {data : ClassificationInput}
    {s : ClassifiedStory} (h : s ∈ detectRevolvingDoor data) :
    s.pattern = "REVOLVING_DOOR" ∧ ∃ t, s.id = "revolving-" ++ t := by
  unfold detectRevolvingDoor at h
  rcases List.mem_flatten.mp h with ⟨l, hl, hsl⟩
  rcases List.mem_map.mp hl with ⟨inv, _, hleq⟩
  subst hleq
  rcases List.mem_filterMap.mp hsl with ⟨f, _, hsome⟩
  unfold revolvingStoryFor at hsome
  by_cases h1 : ((findingLobbyists f).getD []).length = 0
  · rw [if_pos h1] at hsome
    cases hsome
  · rw [if_neg h1] at hsome
    have hs : mkRevolvingStory data inv f = s := Option.some.inj hsome
    subst hs
    refine ⟨rfl, inv.entity_id ++ ("-" ++
      jsSlice (((findingLobbyists f).getD []).headD
        { name := "", covered_position := "" }).name 10), ?_⟩
    show (("revolving-" ++ inv.entity_id) ++ "-") ++ _ = _
    rw [String.append_assoc, String.append_assoc]

theorem detectFamilyPayments_shape {data : ClassificationInput}
    {s : ClassifiedStory} (h : s ∈ detectFamilyPayments data) :
    s.pattern = "FAMILY_PAYMENTS" ∧ ∃ t, s.id = "family-" ++ t := by
  unfold detectFamilyPayments at h
  by_cases h0 : (spousalSignalsOf data).length = 0
  · rw [if_pos h0] at h
    cases h
  · rw [if_neg h0] at h
    rcases List.mem_map.mp h with ⟨p, _, hs⟩
    subst hs
    exact ⟨rfl, p.1, rfl⟩

theorem detectSanctionsFlags_shape {data : ClassificationInput}
    {s : ClassifiedStory} (h : s ∈ detectSanctionsFlags data) :
    s.pattern = "SANCTIONS_FLAG" ∧ ∃ t, s.id = "sanctions-" ++ t := by
  unfold detectSanctionsFlags at h
  by_cases h0 : data.screenings.length = 0
  · rw [if_pos h0] at h
    cases h
  · rw [if_neg h0] at h
    rcases List.mem_map.mp h with ⟨p, _, hs⟩
    subst hs
    exact ⟨rfl, jsSlice p.1 20, rfl⟩

theorem detectHighVolumePassThrough_shape {data : ClassificationInput}
    {s : ClassifiedStory} (h : s ∈ detectHighVolumePassThrough data) :
    s.pattern = "HIGH_VOLUME_PASS_THROUGH" ∧ ∃ t, s.id = "highvol-" ++ t := by
  unfold detectHighVolumePassThrough at h
  rcases List.mem_filterMap.mp h with ⟨p, _, hsome⟩
  by_cases h1 : hvTotal p.2 < 50000
  · rw [if_pos h1] at hsome
    cases hsome
  · rw [if_neg h1] at hsome
    have hs : mkHighVolStory data p = s := Option.some.inj hsome
    subst hs
    exact ⟨rfl, p.1, rfl⟩

theorem detectDarkMoneyClusters_shape {data : ClassificationInput}
    {s : ClassifiedStory} (h : s ∈ detectDarkMoneyClusters data) :
    s.pattern = "DARK_MONEY_CLUSTER" ∧ ∃ t, s.id = "cluster-" ++ t := by
  unfold detectDarkMoneyClusters at h
  by_cases h0 : data.relationships.length < 2
  · rw [if_pos h0] at h
    cases h
  · rw [if_neg h0] at h
    rcases List.mem_map.mp h with ⟨c, _, hs⟩
    subst hs
    exact ⟨rfl, _, rfl⟩

theorem invGo_shape {data : ClassificationInput} {s : ClassifiedStory} :
    ∀ {invs : List MmixEntry} {acc : List ClassifiedStory},
      s ∈ invGo data acc invs →
      s.pattern = "INVESTIGATION_FINDINGS" ∧ ∃ t, s.id = "inv-" ++ t := by
  intro invs
  induction invs with
  | nil => intro acc h; cases h
  | cons inv rest ih =>
    intro acc h
    unfold invGo at h
    split_ifs at h with h1 h2
    · exact ih h
    · exact ih h
    · rcases List.mem_cons.mp h with hs | h
      · subst hs
        exact ⟨rfl, inv.id, rfl⟩
      · exact ih h

theorem detectInvestigationStories_shape {data : ClassificationInput}
    {prior : List ClassifiedStory} {s : ClassifiedStory}
    (h : s ∈ detectInvestigationStories data prior) :
    s.pattern = "INVESTIGATION_FINDINGS" ∧ ∃ t, s.id = "inv-" ++ t :=
  invGo_shape h

/-- No detector ever emits the synthetic DATA_LOADED pattern. -/
theorem allDetectorStories_pattern {data : ClassificationInput}
    {s : ClassifiedStory} (h : s ∈ allDetectorStories data) :
    s.pattern ≠ "DATA_LOADED" := by
  unfold allDetectorStories preInvestigationStories at h
  simp only [List.mem_append] at h
  rcases h with ((((((h | h) | h) | h) | h) | h) | h) | h
  · rw [(detectVendorSiphoning_shape h).1]; decide
  · rw [(detectCrossCampaignNetworks_shape h).1]; decide
  · rw [(detectRevolvingDoor_shape h).1]; decide
  · rw [(detectFamilyPayments_shape h).1]; decide
  · rw [(detectSanctionsFlags_shape h).1]; decide
  · rw [(detectHighVolumePassThrough_shape h).1]; decide
  · rw [(detectDarkMoneyClusters_shape h).1]; decide
  · rw [(detectInvestigationStories_shape h).1]; decide

/-! ## Concrete example snapshots used by witnesses and counterexamples -/

/-- Disbursement builder for examples. -/
def mkDisb (eid : Option String) (recipient : String) (amt : ℚ)
    (committee : Option String) : FecDisbursement :=
  { committee_name := committee, committee_id := none,
    recipient_name := some recipient, disbursement_amount := some amt,
    disbursement_date := some "2024-01-01", entity_id := eid }

/-- Snapshot with all seven collections empty. -/
def exEmpty : ClassificationInput :=
  { signals := [], investigations := [], relationships := [], entities := [],
    disbursements := [], screenings := [], kbNodes := [] }

/-- Spec example: 3 disbursements of 20000 from 3 distinct entities to
recipient ACME CONSULTING. -/
def exAcme : ClassificationInput :=
  { exEmpty with
    disbursements :=
      [mkDisb (some "e1") "Acme Consulting " 20000 (some "C1"),
       mkDisb (some "e2") "ACME CONSULTING" 20000 (some "C2"),
       mkDisb (some "e3") "ACME CONSULTING" 20000 (some "C3")] }

/-- Spec example: a vendor named UNKNOWN with 10 payers and 1000000 total. -/
def exUnknownVendor : ClassificationInput :=
  { exEmpty with
    disbursements := (List.range 10).map (fun i =>
      mkDisb (some ("e" ++ toString i)) "UNKNOWN" 100000 (some ("C" ++ toString i))) }

/-- Spec example: zero signals, zero disbursements, one entity present. -/
def exOneEntity : ClassificationInput :=
  { exEmpty with entities := [{ id := "X", canonical_name := "Xavier", entity_type := "person" }] }

/-- Relationship builder for examples. -/
def mkRel (a b : String) (cur : Bool) : Relationship :=
  { id := a ++ "-" ++ b, source_entity_id := a, target_entity_id := b,
    relationship_type := "shell_company", is_current := cur }

/-- Spec example: relationships A-B and B-C (no A-C edge), entity D
isolated; bridge scores A 0.1, B 0.9, C 0.3. -/
def exCluster : ClassificationInput :=
  { exEmpty with
    relationships := [mkRel "A" "B" true, mkRel "B" "C" true]
    entities :=
      [{ id := "A", canonical_name := "Alpha", entity_type := "org" },
       { id := "B", canonical_name := "Beta", entity_type := "org" },
       { id := "C", canonical_name := "Gamma", entity_type := "org" },
       { id := "D", canonical_name := "Delta", entity_type := "org" }]
    kbNodes :=
      [{ entity_id := some "A", bridge_score := some (1 / 10) },
       { entity_id := some "B", bridge_score := some (9 / 10) },
       { entity_id := some "C", bridge_score := some (3 / 10) }] }

/-- Snapshot whose only relationships are inactive (is_current = false). -/
def exInactiveRels : ClassificationInput :=
  { exEmpty with relationships := [mkRel "A" "B" false, mkRel "B" "C" false] }

/-- Snapshot with one relationship only (below the 2-relationship floor). -/
def exOneRel : ClassificationInput :=
  { exEmpty with relationships := [mkRel "A" "B" true] }

/-- Two distinct 21-character vendor names sharing their first 20
characters, each paid by 3 committees above the committee threshold. -/
def exDupVendor : ClassificationInput :=
  { exEmpty with
    disbursements :=
      [mkDisb none "AAAAAAAAAAAAAAAAAAAAX" 7000 (some "C1"),
       mkDisb none "AAAAAAAAAAAAAAAAAAAAX" 7000 (some "C2"),
       mkDisb none "AAAAAAAAAAAAAAAAAAAAX" 7000 (some "C3"),
       mkDisb none "AAAAAAAAAAAAAAAAAAAAY" 7000 (some "C1"),
       mkDisb none "AAAAAAAAAAAAAAAAAAAAY" 7000 (some "C2"),
       mkDisb none "AAAAAAAAAAAAAAAAAAAAY" 7000 (some "C3")] }

/-- Two CROSS_CAMPAIGN signals from two entities whose free-form detail
amount is negative. -/
def exNegAmount : ClassificationInput :=
  { exEmpty with
    signals :=
      [{ id := "s1", signal_type := "CROSS_CAMPAIGN", entity_id := "e1",
         detected_at := "t",
         details := { vendor := some "V", recipient := none, amount := some (-100),
                      total_amount := none, payment_count := none, description := none } },
       { id := "s2", signal_type := "CROSS_CAMPAIGN", entity_id := "e2",
         detected_at := "t",
         details := { vendor := some "V", recipient := none, amount := some (-100),
                      total_amount := none, payment_count := none, description := none } }] }

/-- ACME snapshot extended with two 2-finding investigations: entity e1 is
already referenced by the VENDOR_SIPHONING story, entity zz is not. -/
def exSuppression : ClassificationInput :=
  { exAcme with
    investigations :=
      [{ id := "i1", entity_id := "e1", entity_name := "Ent One", status := "active",
         thesis := "", sources_queried := [], entered_at := "t",
         findings :=
           [{ source := "fec", summary := "f1", detail := none },
            { source := "courtlistener", summary := "f2", detail := none }] },
       { id := "i2", entity_id := "zz", entity_name := "Zed", status := "active",
         thesis := "", sources_queried := [], entered_at := "t",
         findings :=
           [{ source := "fec", summary := "f1", detail := none },
            { source := "courtlistener", summary := "f2", detail := none }] }] }

/-- One screening row whose list name differs from the sanctions keywords
only by letter case. -/
def exLowercaseSdn : ClassificationInput :=
  { exEmpty with
    screenings :=
      [{ entity_name := some "Bad Org", screened_name := "BAD ORG",
         list_name := some "ofac sdn list", source := "opensanctions",
         match_type := "exact", created_at := "t" }] }

/-! ## Claim C5: DATA_LOADED fallback -/

/-- C5: classifyStories returns exactly one DATA_LOADED story exactly when
no detector emitted any story and at least one of disbursements, entities,
signals is non-empty; with every collection of that trio empty and no
detector output, the result is empty; and any DATA_LOADED story in the
output is the fallback story, with severity info, sourceCount 1 and
networkSize 0. -/
theorem C5_dataLoaded_fallback (data : ClassificationInput) :
    (((classifyStories data).filter (fun s => s.pattern = "DATA_LOADED")).length = 1 ↔
      (allDetectorStories data = [] ∧
        (data.disbursements ≠ [] ∨ data.entities ≠ [] ∨ data.signals ≠ []))) ∧
    (allDetectorStories data = [] → data.disbursements = [] → data.entities = [] →
      data.signals = [] → classifyStories data = []) ∧
    (∀ s ∈ classifyStories data, s.pattern = "DATA_LOADED" →
      s = dataLoadedStory data ∧ s.severity = Severity.info ∧
        s.sourceCount = 1 ∧ s.networkSize = 0) := by
  have hperm : (classifyStories data).Perm (storiesWithFallback data) :=
    List.perm_insertionSort storyLE (storiesWithFallback data)
  have hdetnil : ((allDetectorStories data).filter
      (fun s => s.pattern = "DATA_LOADED")) = [] := by
    apply List.filter_eq_nil_iff.mpr
    intro s hs
    simpa using allDetectorStories_pattern hs
  refine ⟨?_, ?_, ?_⟩
  · rw [(hperm.filter _).length_eq]
    unfold storiesWithFallback
    by_cases hc : (allDetectorStories data).length = 0 ∧
        (0 < data.disbursements.length ∨ 0 < data.entities.length ∨
          0 < data.signals.length)
    · rw [if_pos hc]
      rw [List.filter_append, hdetnil]
      constructor
      · intro _
        refine ⟨List.length_eq_zero.mp hc.1, ?_⟩
        rcases hc.2 with h | h | h
        · exact Or.inl (List.length_pos.mp h)
        · exact Or.inr (Or.inl (List.length_pos.mp h))
        · exact Or.inr (Or.inr (List.length_pos.mp h))
      · intro _
        rfl
    · rw [if_neg hc]
      rw [hdetnil]
      simp only [List.length_nil]
      constructor
      · omega
      · rintro ⟨hnil, hne⟩
        exfalso
        apply hc
        refine ⟨by rw [hnil]; rfl, ?_⟩
        rcases hne with h | h | h
        · exact Or.inl (List.length_pos.mpr h)
        · exact Or.inr (Or.inl (List.length_pos.mpr h))
        · exact Or.inr (Or.inr (List.length_pos.mpr h))
  · intro hdet hd he hs
    have hswf : storiesWithFallback data = [] := by
      unfold storiesWithFallback
      rw [if_neg]
      · exact hdet
      · rintro ⟨_, hpos⟩
        rcases hpos with h | h | h <;>
          simp only [hd, he, hs, List.length_nil] at h <;> omega
    unfold classifyStories
    rw [hswf]
    rfl
  · intro s hsmem hpat
    have hs' : s ∈ storiesWithFallback data := hperm.mem_iff.mp hsmem
    unfold storiesWithFallback at hs'
    by_cases hc : (allDetectorStories data).length = 0 ∧
        (0 < data.disbursements.length ∨ 0 < data.entities.length ∨
          0 < data.signals.length)
    · rw [if_pos hc] at hs'
      rcases List.mem_append.mp hs' with h | h
      · exact absurd hpat (allDetectorStories_pattern h)
      · rcases List.mem_singleton.mp h with rfl
        exact ⟨rfl, rfl, rfl, rfl⟩
    · rw [if_neg hc] at hs'
      exact absurd hpat (allDetectorStories_pattern hs')

/-- Witness for C5 at the spec's concrete snapshots: the all-empty snapshot
yields the empty output, and the one-entity snapshot yields exactly one
DATA_LOADED story. -/
theorem C5_dataLoaded_fallback_witness :
    classifyStories exEmpty = [] ∧
    ((classifyStories exOneEntity).filter
      (fun s => s.pattern = "DATA_LOADED")).length = 1 :=
  ⟨(C5_dataLoaded_fallback exEmpty).2.1 (by decide) rfl rfl rfl,
   (C5_dataLoaded_fallback exOneEntity).1.mpr (by decide)⟩

/-! ## Claim C4: investigation-findings suppression -/

/-- Appending a story of the INVESTIGATION_FINDINGS pattern never changes
the suppression test (the detector only ever appends its own pattern). -/
theorem alreadyCovered_append_inv {acc : List ClassifiedStory}
    {s : ClassifiedStory} (hpat : s.pattern = "INVESTIGATION_FINDINGS")
    (eid : String) : alreadyCovered (acc ++ [s]) eid = alreadyCovered acc eid := by
  unfold alreadyCovered
  rw [List.any_append]
  have hs : [s].any (fun s =>
      s.entities.any (fun e => e.id = eid) && s.pattern ≠ "INVESTIGATION_FINDINGS") =
      false := by
    simp [hpat]
  rw [hs, Bool.or_false]

/-- Closed form of the invGo loop: the stories of the investigations with
at least 2 findings that the initial accumulated list does not suppress (the
stories the loop itself appends never suppress later investigations because
their pattern is INVESTIGATION_FINDINGS). -/
theorem invGo_eq_filterMap (data : ClassificationInput) :
    ∀ (invs : List MmixEntry) (acc : List ClassifiedStory),
      invGo data acc invs =
        (invs.filter (fun inv =>
          decide (2 ≤ inv.findings.length) && !alreadyCovered acc inv.entity_id)).map
          (mkInvStory data) := by
  intro invs
  induction invs with
  | nil => intro acc; rfl
  | cons inv rest ih =>
    intro acc
    unfold invGo
    rw [List.filter_cons]
    by_cases h1 : inv.findings.length < 2
    · rw [if_pos h1]
      have hcond : (decide (2 ≤ inv.findings.length) &&
          !alreadyCovered acc inv.entity_id) = false := by
        have : ¬ (2 ≤ inv.findings.length) := by omega
        simp [this]
      rw [hcond]
      simp only [Bool.false_eq_true, if_false]
      exact ih acc
    · rw [if_neg h1]
      by_cases h2 : alreadyCovered acc inv.entity_id
      · rw [if_pos h2]
        have hcond : (decide (2 ≤ inv.findings.length) &&
            !alreadyCovered acc inv.entity_id) = false := by
          simp [h2]
        rw [hcond]
        simp only [Bool.false_eq_true, if_false]
        exact ih acc
      · rw [if_neg h2]
        have hcond : (decide (2 ≤ inv.findings.length) &&
            !alreadyCovered acc inv.entity_id) = true := by
          have : 2 ≤ inv.findings.length := by omega
          simp [this, h2]
        rw [hcond]
        simp only [if_true, List.map_cons]
        congr 1
        rw [ih (acc ++ [mkInvStory data inv])]
        congr 1
        apply List.filter_congr
        intro x _
        rw [alreadyCovered_append_inv rfl]

set_option maxHeartbeats 3200000 in
/-- C4: the investigation-findings detector, run last against the list of
previously emitted stories, emits a story exactly for the investigations
with at least 2 findings whose entity id is not referenced by a previously
emitted story of a different pattern; the suppression test is spelled out,
and on the concrete ACME-plus-investigations snapshot the entity already
referenced by the VENDOR_SIPHONING story yields no INVESTIGATION_FINDINGS
story while the unreferenced entity does. -/
theorem C4_investigation_suppression :
    (∀ (data : ClassificationInput) (prior : List ClassifiedStory),
      detectInvestigationStories data prior =
        (data.investigations.filter (fun inv =>
          decide (2 ≤ inv.findings.length) &&
            !alreadyCovered prior inv.entity_id)).map (mkInvStory data) ∧
      ∀ eid, alreadyCovered prior eid = true ↔
        ∃ s ∈ prior, s.pattern ≠ "INVESTIGATION_FINDINGS" ∧
          ∃ e ∈ s.entities, e.id = eid) ∧
    ((classifyStories exSuppression).filter
      (fun s => s.pattern = "INVESTIGATION_FINDINGS")).map (fun s => s.id) =
      ["inv-i2"] ∧
    (∃ inv ∈ exSuppression.investigations,
      inv.entity_id = "e1" ∧ 2 ≤ inv.findings.length) ∧
    (∃ s ∈ classifyStories exSuppression,
      s.pattern = "VENDOR_SIPHONING" ∧ ∃ e ∈ s.entities, e.id = "e1") := by
  refine ⟨?_, by norm_num +decide [classifyStories, storiesWithFallback, allDetectorStories,
      preInvestigationStories, detectVendorSiphoning, siphonStoryFor,
      siphonEntityStory, siphonCommitteeStory, vendorMapOf, payerEntityList,
      payerCommitteeList, vendorGroupTotal, normVendorName, vendorKeyOk,
      genericVendorNames, committeeKeyOf, latestDate,
      detectCrossCampaignNetworks, crossSignalsOf, crossVendorOf, crossAmt,
      crossEntityIds, mkCrossStory, detectRevolvingDoor, ldaSourceOk,
      findingLobbyists, revolvingStoryFor, mkRevolvingStory,
      detectFamilyPayments, spousalSignalsOf, mkFamilyStory,
      detectSanctionsFlags, screeningGroups, screeningList, mkSanctionsStory,
      jsIncludes, detectHighVolumePassThrough, hvSignalsOf, hvTotal,
      mkHighVolStory, detectDarkMoneyClusters, clustersOf, adjOf, adjStep,
      addNbr, setIfAbsent, modifyA, getA, adjGet, findClustersGo, explore,
      bridgeScoresOf, bridgeStep, bridgeGet, entityDisbursementsOf, hubOf,
      jsMaxList, mkClusterStory, underscoresToSpaces,
      detectInvestigationStories, invGo, mkInvStory, alreadyCovered,
      formatSourceLabel, dataLoadedStory, storyLE, severityOrder, groupByKey,
      dedupFirst, entityName, lookupEntity, jsOrStr, jsOrNum, jsTruthy,
      jsToUpper, jsTrim, jsSlice, jsMaxStr, disbAmt, List.insertionSort,
      List.orderedInsert, List.filterMap, List.filter, List.foldl, List.find?,
      List.headD, List.head?, List.take, List.flatten, List.any, List.all,
      Option.bind, Option.getD, exSuppression, exAcme, exEmpty, mkDisb],
    by norm_num +decide [classifyStories, storiesWithFallback, allDetectorStories,
      preInvestigationStories, detectVendorSiphoning, siphonStoryFor,
      siphonEntityStory, siphonCommitteeStory, vendorMapOf, payerEntityList,
      payerCommitteeList, vendorGroupTotal, normVendorName, vendorKeyOk,
      genericVendorNames, committeeKeyOf, latestDate,
      detectCrossCampaignNetworks, crossSignalsOf, crossVendorOf, crossAmt,
      crossEntityIds, mkCrossStory, detectRevolvingDoor, ldaSourceOk,
      findingLobbyists, revolvingStoryFor, mkRevolvingStory,
      detectFamilyPayments, spousalSignalsOf, mkFamilyStory,
      detectSanctionsFlags, screeningGroups, screeningList, mkSanctionsStory,
      jsIncludes, detectHighVolumePassThrough, hvSignalsOf, hvTotal,
      mkHighVolStory, detectDarkMoneyClusters, clustersOf, adjOf, adjStep,
      addNbr, setIfAbsent, modifyA, getA, adjGet, findClustersGo, explore,
      bridgeScoresOf, bridgeStep, bridgeGet, entityDisbursementsOf, hubOf,
      jsMaxList, mkClusterStory, underscoresToSpaces,
      detectInvestigationStories, invGo, mkInvStory, alreadyCovered,
      formatSourceLabel, dataLoadedStory, storyLE, severityOrder, groupByKey,
      dedupFirst, entityName, lookupEntity, jsOrStr, jsOrNum, jsTruthy,
      jsToUpper, jsTrim, jsSlice, jsMaxStr, disbAmt, List.insertionSort,
      List.orderedInsert, List.filterMap, List.filter, List.foldl, List.find?,
      List.headD, List.head?, List.take, List.flatten, List.any, List.all,
      Option.bind, Option.getD, exSuppression, exAcme, exEmpty, mkDisb],
    by norm_num +decide [classifyStories, storiesWithFallback, allDetectorStories,
      preInvestigationStories, detectVendorSiphoning, siphonStoryFor,
      siphonEntityStory, siphonCommitteeStory, vendorMapOf, payerEntityList,
      payerCommitteeList, vendorGroupTotal, normVendorName, vendorKeyOk,
      genericVendorNames, committeeKeyOf, latestDate,
      detectCrossCampaignNetworks, crossSignalsOf, crossVendorOf, crossAmt,
      crossEntityIds, mkCrossStory, detectRevolvingDoor, ldaSourceOk,
      findingLobbyists, revolvingStoryFor, mkRevolvingStory,
      detectFamilyPayments, spousalSignalsOf, mkFamilyStory,
      detectSanctionsFlags, screeningGroups, screeningList, mkSanctionsStory,
      jsIncludes, detectHighVolumePassThrough, hvSignalsOf, hvTotal,
      mkHighVolStory, detectDarkMoneyClusters, clustersOf, adjOf, adjStep,
      addNbr, setIfAbsent, modifyA, getA, adjGet, findClustersGo, explore,
      bridgeScoresOf, bridgeStep, bridgeGet, entityDisbursementsOf, hubOf,
      jsMaxList, mkClusterStory, underscoresToSpaces,
      detectInvestigationStories, invGo, mkInvStory, alreadyCovered,
      formatSourceLabel, dataLoadedStory, storyLE, severityOrder, groupByKey,
      dedupFirst, entityName, lookupEntity, jsOrStr, jsOrNum, jsTruthy,
      jsToUpper, jsTrim, jsSlice, jsMaxStr, disbAmt, List.insertionSort,
      List.orderedInsert, List.filterMap, List.filter, List.foldl, List.find?,
      List.headD, List.head?, List.take, List.flatten, List.any, List.all,
      Option.bind, Option.getD, exSuppression, exAcme, exEmpty, mkDisb]⟩
  intro data prior
  refine ⟨invGo_eq_filterMap data data.investigations prior, ?_⟩
  intro eid
  unfold alreadyCovered
  rw [List.any_eq_true]
  constructor
  · rintro ⟨s, hs, hf⟩
    rw [Bool.and_eq_true, List.any_eq_true] at hf
    rcases hf with ⟨⟨e, he, heid⟩, hpat⟩
    refine ⟨s, hs, by simpa using hpat, e, he, by simpa using heid⟩
  · rintro ⟨s, hs, hpat, e, he, heid⟩
    refine ⟨s, hs, ?_⟩
    rw [Bool.and_eq_true, List.any_eq_true]
    exact ⟨⟨e, he, by simpa using heid⟩, by simpa using hpat⟩

set_option maxHeartbeats 3200000 in
/-- Witness for C4: at the concrete snapshot, with the accumulated prior
stories of the seven earlier detectors, the suppression test holds for the
covered entity e1 and the detector output contains only the story for the
uncovered entity. -/
theorem C4_investigation_suppression_witness :
    alreadyCovered (preInvestigationStories exSuppression) "e1" = true ∧
    (detectInvestigationStories exSuppression
      (preInvestigationStories exSuppression)).map (fun s => s.id) = ["inv-i2"] := by
  constructor
  · exact ((C4_investigation_suppression.1 exSuppression
      (preInvestigationStories exSuppression)).2 "e1").mpr
      (by norm_num +decide [classifyStories, storiesWithFallback, allDetectorStories,
      preInvestigationStories, detectVendorSiphoning, siphonStoryFor,
      siphonEntityStory, siphonCommitteeStory, vendorMapOf, payerEntityList,
      payerCommitteeList, vendorGroupTotal, normVendorName, vendorKeyOk,
      genericVendorNames, committeeKeyOf, latestDate,
      detectCrossCampaignNetworks, crossSignalsOf, crossVendorOf, crossAmt,
      crossEntityIds, mkCrossStory, detectRevolvingDoor, ldaSourceOk,
      findingLobbyists, revolvingStoryFor, mkRevolvingStory,
      detectFamilyPayments, spousalSignalsOf, mkFamilyStory,
      detectSanctionsFlags, screeningGroups, screeningList, mkSanctionsStory,
      jsIncludes, detectHighVolumePassThrough, hvSignalsOf, hvTotal,
      mkHighVolStory, detectDarkMoneyClusters, clustersOf, adjOf, adjStep,
      addNbr, setIfAbsent, modifyA, getA, adjGet, findClustersGo, explore,
      bridgeScoresOf, bridgeStep, bridgeGet, entityDisbursementsOf, hubOf,
      jsMaxList, mkClusterStory, underscoresToSpaces,
      detectInvestigationStories, invGo, mkInvStory, alreadyCovered,
      formatSourceLabel, dataLoadedStory, storyLE, severityOrder, groupByKey,
      dedupFirst, entityName, lookupEntity, jsOrStr, jsOrNum, jsTruthy,
      jsToUpper, jsTrim, jsSlice, jsMaxStr, disbAmt, List.insertionSort,
      List.orderedInsert, List.filterMap, List.filter, List.foldl, List.find?,
      List.headD, List.head?, List.take, List.flatten, List.any, List.all,
      Option.bind, Option.getD, exSuppression, exAcme, exEmpty, mkDisb])
  · rw [(C4_investigation_suppression.1 exSuppression
      (preInvestigationStories exSuppression)).1]
    norm_num +decide [classifyStories, storiesWithFallback, allDetectorStories,
      preInvestigationStories, detectVendorSiphoning, siphonStoryFor,
      siphonEntityStory, siphonCommitteeStory, vendorMapOf, payerEntityList,
      payerCommitteeList, vendorGroupTotal, normVendorName, vendorKeyOk,
      genericVendorNames, committeeKeyOf, latestDate,
      detectCrossCampaignNetworks, crossSignalsOf, crossVendorOf, crossAmt,
      crossEntityIds, mkCrossStory, detectRevolvingDoor, ldaSourceOk,
      findingLobbyists, revolvingStoryFor, mkRevolvingStory,
      detectFamilyPayments, spousalSignalsOf, mkFamilyStory,
      detectSanctionsFlags, screeningGroups, screeningList, mkSanctionsStory,
      jsIncludes, detectHighVolumePassThrough, hvSignalsOf, hvTotal,
      mkHighVolStory, detectDarkMoneyClusters, clustersOf, adjOf, adjStep,
      addNbr, setIfAbsent, modifyA, getA, adjGet, findClustersGo, explore,
      bridgeScoresOf, bridgeStep, bridgeGet, entityDisbursementsOf, hubOf,
      jsMaxList, mkClusterStory, underscoresToSpaces,
      detectInvestigationStories, invGo, mkInvStory, alreadyCovered,
      formatSourceLabel, dataLoadedStory, storyLE, severityOrder, groupByKey,
      dedupFirst, entityName, lookupEntity, jsOrStr, jsOrNum, jsTruthy,
      jsToUpper, jsTrim, jsSlice, jsMaxStr, disbAmt, List.insertionSort,
      List.orderedInsert, List.filterMap, List.filter, List.foldl, List.find?,
      List.headD, List.head?, List.take, List.flatten, List.any, List.all,
      Option.bind, Option.getD, exSuppression, exAcme, exEmpty, mkDisb]

/-! ## Claim C10: sanctions severity rule -/

/-- C10: for every screening group, the emitted story's severity is
critical exactly when one of the group's distinct list labels (list_name,
else source) contains SDN, OFAC or Sanctions as a case-sensitive substring,
and high otherwise; every sanctions story comes from such a group; and on
the concrete snapshot whose only list label is the lowercase
"ofac sdn list" the severity is high, not critical. -/
theorem C10_sanctions_severity :
    (∀ (data : ClassificationInput), ∀ p ∈ screeningGroups data,
      ((mkSanctionsStory p).severity = Severity.critical ↔
        ∃ l ∈ dedupFirst (p.2.map screeningList),
          ("SDN".data <:+: l.data ∨ "OFAC".data <:+: l.data ∨
            "Sanctions".data <:+: l.data)) ∧
      ((mkSanctionsStory p).severity = Severity.critical ∨
        (mkSanctionsStory p).severity = Severity.high)) ∧
    (∀ (data : ClassificationInput), ∀ s ∈ detectSanctionsFlags data,
      ∃ p ∈ screeningGroups data, s = mkSanctionsStory p) ∧
    (∀ s ∈ classifyStories exLowercaseSdn,
      s.pattern = "SANCTIONS_FLAG" ∧ s.severity = Severity.high) := by
  have hsev : ∀ p : String × List ScreeningResult,
      (mkSanctionsStory p).severity =
        if (dedupFirst (p.2.map screeningList)).any (fun l =>
          jsIncludes l "SDN" || jsIncludes l "OFAC" || jsIncludes l "Sanctions")
        then Severity.critical else Severity.high := fun p => rfl
  refine ⟨?_, ?_, ?_⟩
  · intro data p _
    constructor
    · rw [hsev p]
      by_cases hc : (dedupFirst (p.2.map screeningList)).any (fun l =>
          jsIncludes l "SDN" || jsIncludes l "OFAC" || jsIncludes l "Sanctions") = true
      · rw [if_pos hc]
        simp only [iff_true_intro rfl, true_iff]
        rw [List.any_eq_true] at hc
        rcases hc with ⟨l, hl, hb⟩
        refine ⟨l, hl, ?_⟩
        simpa [jsIncludes, Bool.or_eq_true, decide_eq_true_eq, or_assoc] using hb
      · rw [if_neg hc]
        constructor
        · intro h
          cases h
        · intro ⟨l, hl, hb⟩
          exfalso
          apply hc
          rw [List.any_eq_true]
          refine ⟨l, hl, ?_⟩
          simpa [jsIncludes, Bool.or_eq_true, decide_eq_true_eq, or_assoc] using hb
    · rw [hsev p]
      by_cases hc : (dedupFirst (p.2.map screeningList)).any (fun l =>
          jsIncludes l "SDN" || jsIncludes l "OFAC" || jsIncludes l "Sanctions") = true
      · rw [if_pos hc]
        exact Or.inl rfl
      · rw [if_neg hc]
        exact Or.inr rfl
  · intro data s h
    unfold detectSanctionsFlags at h
    by_cases h0 : data.screenings.length = 0
    · rw [if_pos h0] at h
      cases h
    · rw [if_neg h0] at h
      rcases List.mem_map.mp h with ⟨p, hp, hs⟩
      exact ⟨p, hp, hs.symm⟩
  · decide

/-- Witness for C10: the theorem applied to the lowercase-list group forces
severity high on it. -/
theorem C10_sanctions_severity_witness :
    (mkSanctionsStory ("Bad Org", exLowercaseSdn.screenings)).severity =
      Severity.high := by
  have h := (C10_sanctions_severity.1 exLowercaseSdn
    ("Bad Org", exLowercaseSdn.screenings) (by decide))
  rcases h.2 with hcrit | hhigh
  · exfalso
    have := h.1.mp hcrit
    revert this
    decide
  · exact hhigh

/-! ## Claim C2: vendor-siphoning decision rule -/

/-- Disbursements of the snapshot whose normalized recipient is v. -/
def vendorDisbs (data : ClassificationInput) (v : String) : List FecDisbursement :=
  data.disbursements.filter (fun d => normVendorName d = v)

/-- Distinct truthy paying entity ids of vendor v. -/
def vendorPayerIds (data : ClassificationInput) (v : String) : List String :=
  dedupFirst ((vendorDisbs data v).filterMap (fun d => jsTruthy d.entity_id))

/-- Distinct committee keys of vendor v. -/
def vendorCommKeys (data : ClassificationInput) (v : String) : List String :=
  dedupFirst ((vendorDisbs data v).map committeeKeyOf)

/-- Total amount disbursed to vendor v. -/
def vendorTotal (data : ClassificationInput) (v : String) : ℚ :=
  ((vendorDisbs data v).map disbAmt).sum

/-- The line-131 filter, spelled out. -/
theorem vendorKeyOk_iff (v : String) :
    vendorKeyOk v = true ↔ v ≠ "" ∧ 3 ≤ v.length ∧ v ∉ genericVendorNames := by
  unfold vendorKeyOk
  rw [decide_eq_true_eq]
  push_neg
  rfl

/-- Within a vendor key that passes the filter, restricting the pre-filtered
disbursement list to that key is the same as restricting the raw snapshot. -/
theorem okDisbs_filter_eq {data : ClassificationInput} {v : String}
    (hok : vendorKeyOk v = true) :
    (data.disbursements.filter (fun d => vendorKeyOk (normVendorName d))).filter
      (fun d => normVendorName d = v) = vendorDisbs data v := by
  unfold vendorDisbs
  rw [List.filter_filter]
  apply List.filter_congr
  intro d _
  by_cases hd : normVendorName d = v
  · simp [hd, hok]
  · simp [hd]

/-- Every vendor-map entry is the key's raw disbursement list, for a key
that occurs and passes the filter. -/
theorem vendorMapOf_entry {data : ClassificationInput} {v : String}
    {g : List FecDisbursement} (h : (v, g) ∈ vendorMapOf data) :
    g = vendorDisbs data v ∧ vendorKeyOk v = true ∧
      ∃ d ∈ data.disbursements, normVendorName d = v := by
  have hmem := @groupByKey_mem FecDisbursement _ normVendorName
    (data.disbursements.filter (fun d => vendorKeyOk (normVendorName d))) _ h
  rcases hmem with ⟨hg, x, hx, hnx⟩
  simp only at hg hnx
  rcases List.mem_filter.mp hx with ⟨hxd, hxok⟩
  have hok : vendorKeyOk v = true := by
    rw [← hnx]
    simpa using hxok
  refine ⟨?_, hok, x, hxd, hnx⟩
  simpa using hg.trans (okDisbs_filter_eq hok)

/-- Conversely, an occurring key that passes the filter owns a vendor-map
entry, namely its raw disbursement list. -/
theorem vendorMapOf_entry_of {data : ClassificationInput} {v : String}
    (hocc : ∃ d ∈ data.disbursements, normVendorName d = v)
    (hok : vendorKeyOk v = true) :
    (v, vendorDisbs data v) ∈ vendorMapOf data := by
  rcases hocc with ⟨d, hd, hnd⟩
  have hdok : d ∈ data.disbursements.filter (fun d => vendorKeyOk (normVendorName d)) := by
    rw [List.mem_filter]
    exact ⟨hd, by rw [hnd]; simpa using hok⟩
  unfold vendorMapOf groupByKey
  apply List.mem_map.mpr
  refine ⟨v, ?_, ?_⟩
  · rw [mem_dedupFirst]
    exact List.mem_map.mpr ⟨d, hdok, hnd⟩
  · rw [okDisbs_filter_eq hok]

/-- The emission test of the loop body, spelled out. -/
theorem siphonStoryFor_isSome {data : ClassificationInput} {v : String}
    {g : List FecDisbursement} :
    (siphonStoryFor data v g).isSome = true ↔
      ((3 ≤ (payerEntityList data g).length ∧ 50000 ≤ vendorGroupTotal g) ∨
        (¬ (3 ≤ (payerEntityList data g).length ∧ 50000 ≤ vendorGroupTotal g) ∧
          3 ≤ (payerCommitteeList g).length ∧ 20000 ≤ vendorGroupTotal g)) := by
  unfold siphonStoryFor
  by_cases h1 : 3 ≤ (payerEntityList data g).length ∧ 50000 ≤ vendorGroupTotal g
  · rw [if_pos h1]
    simp [h1]
  · rw [if_neg h1]
    by_cases h2 : 3 ≤ (payerCommitteeList g).length ∧ 20000 ≤ vendorGroupTotal g
    · rw [if_pos h2]
      simp [h1, h2]
    · rw [if_neg h2]
      simp [h1, h2]

/-- First components of a keyed filterMap form a sublist of the keys. -/
theorem filterMap_pair_fst_sublist {α β γ : Type} (l : List (α × β))
    (f : α → β → Option γ) :
    ((l.filterMap (fun p => (f p.1 p.2).map (fun c => (p.1, c)))).map
      Prod.fst).Sublist (l.map Prod.fst) := by
  induction l with
  | nil => simp
  | cons a t ih =>
    rw [List.filterMap_cons]
    cases hf : f a.1 a.2 with
    | none =>
      simp only [Option.map_none']
      exact (List.map_cons _ _ _) ▸ ih.cons a.1
    | some c =>
      simp only [Option.map_some']
      rw [List.map_cons, List.map_cons]
      exact ih.cons₂ a.1

/-- Second components of a keyed filterMap are the raw filterMap. -/
theorem filterMap_pair_snd {α β γ : Type} (l : List (α × β))
    (f : α → β → Option γ) :
    (l.filterMap (fun p => (f p.1 p.2).map (fun c => (p.1, c)))).map Prod.snd =
      l.filterMap (fun p => f p.1 p.2) := by
  induction l with
  | nil => rfl
  | cons a t ih =>
    rw [List.filterMap_cons, List.filterMap_cons]
    cases hf : f a.1 a.2 with
    | none => simpa using ih
    | some c => simpa using ih

/-- C2: the vendor-siphoning detector emits at most one story per
normalized recipient name (the story-producing vendor keys are distinct and
the detector output is exactly the per-key story list), and it emits a story
for the name v exactly when v occurs as a normalized recipient, is
non-empty, at least 3 characters long, not stoplisted, and either at least
3 distinct paying entity ids with total at least 50000, or — only when the
entity rule fails — at least 3 distinct committee keys with total at least
20000.  On the concrete snapshots: ACME CONSULTING with 3 times 20000 from
3 entities yields exactly one story with networkSize 3 and totalMoney
60000, and the stoplisted vendor UNKNOWN yields no story at all. -/
theorem C2_vendor_siphoning :
    (∀ data : ClassificationInput,
      ((siphonPairs data).map Prod.fst).Nodup ∧
      detectVendorSiphoning data = (siphonPairs data).map Prod.snd ∧
      (∀ v : String,
        (∃ st, (v, st) ∈ siphonPairs data) ↔
          ((∃ d ∈ data.disbursements, normVendorName d = v) ∧
            v ≠ "" ∧ 3 ≤ v.length ∧ v ∉ genericVendorNames ∧
            ((3 ≤ (vendorPayerIds data v).length ∧ 50000 ≤ vendorTotal data v) ∨
              (¬ (3 ≤ (vendorPayerIds data v).length ∧
                  50000 ≤ vendorTotal data v) ∧
                3 ≤ (vendorCommKeys data v).length ∧
                20000 ≤ vendorTotal data v))))) ∧
    (detectVendorSiphoning exAcme).map
      (fun s => (s.pattern, s.networkSize, s.totalMoney)) =
      [("VENDOR_SIPHONING", 3, (60000 : ℚ))] ∧
    detectVendorSiphoning exUnknownVendor = [] := by
  refine ⟨?_, ?_, ?_⟩
  · intro data
    refine ⟨?_, (filterMap_pair_snd _ _).symm, ?_⟩
    · unfold siphonPairs vendorMapOf
      exact List.Nodup.sublist (filterMap_pair_fst_sublist _ _)
        (groupByKey_keys_nodup normVendorName _)
    · intro v
      constructor
      · rintro ⟨st, hst⟩
        unfold siphonPairs at hst
        rcases List.mem_filterMap.mp hst with ⟨p, hp, hmap⟩
        rcases Option.map_eq_some'.mp hmap with ⟨story, hstory, heq⟩
        have hv : p.1 = v := congrArg Prod.fst heq
        rcases p with ⟨v', g⟩
        cases hv
        rcases vendorMapOf_entry hp with ⟨hg, hok, hocc⟩
        subst hg
        rcases (vendorKeyOk_iff v').mp hok with ⟨hne, hlen, hnotmem⟩
        refine ⟨hocc, hne, hlen, hnotmem, ?_⟩
        have hsome : (siphonStoryFor data v' (vendorDisbs data v')).isSome = true := by
          rw [hstory]
          rfl
        have := siphonStoryFor_isSome.mp hsome
        simpa [payerEntityList, payerCommitteeList, vendorPayerIds,
          vendorCommKeys, vendorGroupTotal, vendorTotal, List.length_map]
          using this
      · rintro ⟨hocc, hne, hlen, hnotmem, hthr⟩
        have hok : vendorKeyOk v = true :=
          (vendorKeyOk_iff v).mpr ⟨hne, hlen, hnotmem⟩
        have hent := vendorMapOf_entry_of hocc hok
        have hsome : (siphonStoryFor data v (vendorDisbs data v)).isSome = true := by
          rw [siphonStoryFor_isSome]
          simpa [payerEntityList, payerCommitteeList, vendorPayerIds,
            vendorCommKeys, vendorGroupTotal, vendorTotal, List.length_map]
            using hthr
        rcases Option.isSome_iff_exists.mp hsome with ⟨st, hst⟩
        refine ⟨st, ?_⟩
        unfold siphonPairs
        apply List.mem_filterMap.mpr
        exact ⟨(v, vendorDisbs data v), hent, by rw [hst]; rfl⟩
  · norm_num +decide [detectVendorSiphoning, siphonStoryFor, siphonEntityStory,
      siphonCommitteeStory, vendorMapOf, payerEntityList, payerCommitteeList,
      vendorGroupTotal, normVendorName, vendorKeyOk, genericVendorNames,
      committeeKeyOf, latestDate, groupByKey, dedupFirst, entityName,
      lookupEntity, jsOrStr, jsOrNum, jsTruthy, jsToUpper, jsTrim, jsSlice,
      jsMaxStr, disbAmt, List.insertionSort, List.orderedInsert,
      List.filterMap, List.filter, List.foldl, List.find?, List.take,
      exAcme, exEmpty, mkDisb]
  · norm_num +decide [detectVendorSiphoning, siphonStoryFor, siphonEntityStory,
      siphonCommitteeStory, vendorMapOf, payerEntityList, payerCommitteeList,
      vendorGroupTotal, normVendorName, vendorKeyOk, genericVendorNames,
      committeeKeyOf, latestDate, groupByKey, dedupFirst, entityName,
      lookupEntity, jsOrStr, jsOrNum, jsTruthy, jsToUpper, jsTrim, jsSlice,
      jsMaxStr, disbAmt, List.insertionSort, List.orderedInsert,
      List.filterMap, List.filter, List.foldl, List.find?, List.take,
      List.range, exUnknownVendor, exEmpty, mkDisb]

/-- Witness for C2: the characterization applied at the ACME snapshot — its
vendor keys are duplicate-free, and the emission test holds for the vendor
key ACME CONSULTING. -/
theorem C2_vendor_siphoning_witness :
    ((siphonPairs exAcme).map Prod.fst).Nodup ∧
    (detectVendorSiphoning exAcme).map
      (fun s => (s.pattern, s.networkSize, s.totalMoney)) =
      [("VENDOR_SIPHONING", 3, (60000 : ℚ))] :=
  ⟨(C2_vendor_siphoning.1 exAcme).1, C2_vendor_siphoning.2.1⟩

/-! ## Claim C8: cluster hub selection -/

/-- The reduce of lines 490-493 returns the first element of a :: l
attaining the maximal score: a decomposition with strictly smaller scores
before it and no larger score anywhere. -/
theorem foldl_argmax_first (score : String → ℚ) :
    ∀ (l : List String) (a : String),
      ∃ pre post,
        a :: l = pre ++ (l.foldl (fun best id =>
          if score best < score id then id else best) a) :: post ∧
        (∀ x ∈ pre, score x < score (l.foldl (fun best id =>
          if score best < score id then id else best) a)) ∧
        (∀ x ∈ a :: l, score x ≤ score (l.foldl (fun best id =>
          if score best < score id then id else best) a)) := by
  intro l
  induction l with
  | nil =>
    intro a
    exact ⟨[], [], rfl, by simp, by simp⟩
  | cons b t ih =>
    intro a
    simp only [List.foldl_cons]
    by_cases hab : score a < score b
    · rw [if_pos hab]
      rcases ih b with ⟨pre, post, hsplit, hlt, hle⟩
      refine ⟨a :: pre, post, ?_, ?_, ?_⟩
      · rw [List.cons_append, ← hsplit]
      · intro x hx
        rcases List.mem_cons.mp hx with rfl | hx
        · exact lt_of_lt_of_le hab (hle b (List.mem_cons_self b t))
        · exact hlt x hx
      · intro x hx
        rcases List.mem_cons.mp hx with rfl | hx
        · exact le_of_lt (lt_of_lt_of_le hab (hle b (List.mem_cons_self b t)))
        · exact hle x hx
    · rw [if_neg hab]
      rcases ih a with ⟨pre, post, hsplit, hlt, hle⟩
      cases pre with
      | nil =>
        rw [List.nil_append] at hsplit
        injection hsplit with ha ht
        refine ⟨[], b :: t, ?_, by simp, ?_⟩
        · rw [List.nil_append, ← ha]
        · intro x hx
          rcases List.mem_cons.mp hx with rfl | hx
          · rw [← ha]
          · rcases List.mem_cons.mp hx with rfl | hx
            · rw [← ha]
              exact le_of_not_lt hab
            · exact hle x (List.mem_cons_of_mem a hx)
      | cons p ps =>
        rw [List.cons_append] at hsplit
        injection hsplit with hpa htail
        refine ⟨a :: b :: ps, post, ?_, ?_, ?_⟩
        · rw [List.cons_append, List.cons_append]
          exact congrArg (fun l => a :: b :: l) htail
        · intro x hx
          have hpmem : p ∈ p :: ps := List.mem_cons_self p ps
          have hap : score a < score (t.foldl (fun best id =>
              if score best < score id then id else best) a) := by
            have h0 := hlt p hpmem
            rw [← hpa] at h0
            exact h0
          rcases List.mem_cons.mp hx with rfl | hx
          · exact hap
          · rcases List.mem_cons.mp hx with rfl | hx
            · exact lt_of_le_of_lt (le_of_not_lt hab) hap
            · exact hlt x (List.mem_cons_of_mem p hx)
        · intro x hx
          rcases List.mem_cons.mp hx with rfl | hx
          · exact hle x (List.mem_cons_self x t)
          · rcases List.mem_cons.mp hx with rfl | hx
            · exact le_trans (le_of_not_lt hab) (hle a (List.mem_cons_self a t))
            · exact hle x (List.mem_cons_of_mem a hx)

/-- The left fold of max is an attained upper bound. -/
theorem foldl_max_spec : ∀ (l : List ℚ) (a : ℚ),
    l.foldl max a ∈ a :: l ∧ ∀ x ∈ a :: l, x ≤ l.foldl max a := by
  intro l
  induction l with
  | nil => intro a; exact ⟨by simp, by simp⟩
  | cons b t ih =>
    intro a
    simp only [List.foldl_cons]
    rcases ih (max a b) with ⟨hmem, hle⟩
    constructor
    · rcases List.mem_cons.mp hmem with h | h
      · rw [h]
        rcases max_choice a b with hm | hm <;> rw [hm]
        · exact List.mem_cons_self a (b :: t)
        · exact List.mem_cons_of_mem a (List.mem_cons_self b t)
      · exact List.mem_cons_of_mem a (List.mem_cons_of_mem b h)
    · intro x hx
      rcases List.mem_cons.mp hx with rfl | hx
      · exact le_trans (le_max_left x b) (hle _ (List.mem_cons_self _ t))
      · rcases List.mem_cons.mp hx with rfl | hx
        · exact le_trans (le_max_right a x) (hle _ (List.mem_cons_self _ t))
        · exact hle x (List.mem_cons_of_mem _ hx)

/-- Every cluster the traversal keeps has at least 3 members. -/
theorem findClustersGo_length {c : List String} :
    ∀ {adj : List (String × List String)} {visited seeds : List String},
      c ∈ findClustersGo adj visited seeds → 3 ≤ c.length := by
  intro adj visited seeds
  induction seeds generalizing visited with
  | nil => intro h; cases h
  | cons s rest ih =>
    intro h
    unfold findClustersGo at h
    split_ifs at h with h1 h2
    · exact ih h
    · rcases List.mem_cons.mp h with rfl | h
      · exact h2
      · exact ih h
    · exact ih h

/-- Clusters found by the detector are nonempty. -/
theorem clustersOf_ne_nil {data : ClassificationInput} {c : List String}
    (h : c ∈ clustersOf data) : c ≠ [] := by
  have := findClustersGo_length h
  intro hc
  rw [hc] at this
  simp at this

/-- hubOf over a nonempty cluster is a fold from its head. -/
theorem hubOf_cons (score : String → ℚ) (h : String) (t : List String) :
    hubOf score (h :: t) =
      t.foldl (fun best id => if score best < score id then id else best) h := by
  unfold hubOf
  rw [List.headD_cons, List.foldl_cons, if_neg (lt_irrefl (score h))]

/-- C8: for every cluster found by the dark-money detector, the hub is the
first member in traversal order attaining the maximal bridge score (lookup
defaulting to 0 for members with no recorded score), maxBridge is that
member's score, and the story id is derived from the hub; on the concrete
example with scores A 0.1, B 0.9, C 0.3 the hub is B. -/
theorem C8_cluster_hub :
    (∀ (data : ClassificationInput) (c : List String), c ∈ clustersOf data →
      ∃ pre post,
        c = pre ++ hubOf (bridgeGet (bridgeScoresOf data.kbNodes)) c :: post ∧
        (∀ x ∈ pre, bridgeGet (bridgeScoresOf data.kbNodes) x <
          bridgeGet (bridgeScoresOf data.kbNodes)
            (hubOf (bridgeGet (bridgeScoresOf data.kbNodes)) c)) ∧
        (∀ x ∈ c, bridgeGet (bridgeScoresOf data.kbNodes) x ≤
          bridgeGet (bridgeScoresOf data.kbNodes)
            (hubOf (bridgeGet (bridgeScoresOf data.kbNodes)) c)) ∧
        jsMaxList (c.map (bridgeGet (bridgeScoresOf data.kbNodes))) =
          bridgeGet (bridgeScoresOf data.kbNodes)
            (hubOf (bridgeGet (bridgeScoresOf data.kbNodes)) c) ∧
        (mkClusterStory data c).id =
          "cluster-" ++ hubOf (bridgeGet (bridgeScoresOf data.kbNodes)) c) ∧
    clustersOf exCluster = [["A", "B", "C"]] ∧
    hubOf (bridgeGet (bridgeScoresOf exCluster.kbNodes)) ["A", "B", "C"] = "B" := by
  refine ⟨?_, ?_, ?_⟩
  · intro data c hc
    cases c with
    | nil => exact (clustersOf_ne_nil hc rfl).elim
    | cons h t =>
      have hid : (mkClusterStory data (h :: t)).id =
          "cluster-" ++ hubOf (bridgeGet (bridgeScoresOf data.kbNodes)) (h :: t) := rfl
      rw [hubOf_cons]
      rw [hubOf_cons] at hid
      rcases foldl_argmax_first (bridgeGet (bridgeScoresOf data.kbNodes)) t h with
        ⟨pre, post, hsplit, hlt, hle⟩
      refine ⟨pre, post, hsplit, hlt, (fun x hx => hle x hx), ?_, hid⟩
      have hhub : t.foldl (fun best id =>
          if bridgeGet (bridgeScoresOf data.kbNodes) best <
            bridgeGet (bridgeScoresOf data.kbNodes) id then id else best) h ∈ h :: t := by
        rw [hsplit]
        simp
      rcases foldl_max_spec (t.map (bridgeGet (bridgeScoresOf data.kbNodes)))
        (bridgeGet (bridgeScoresOf data.kbNodes) h) with ⟨hmax_mem, hmax_le⟩
      have hjs : jsMaxList ((h :: t).map (bridgeGet (bridgeScoresOf data.kbNodes))) =
          (t.map (bridgeGet (bridgeScoresOf data.kbNodes))).foldl max
            (bridgeGet (bridgeScoresOf data.kbNodes) h) := rfl
      rw [hjs]
      apply le_antisymm
      · rcases List.mem_cons.mp hmax_mem with heq | hmemmap
        · rw [heq]
          exact hle h (List.mem_cons_self h t)
        · rcases List.mem_map.mp hmemmap with ⟨y, hy, hyeq⟩
          rw [← hyeq]
          exact hle y (List.mem_cons_of_mem h hy)
      · rcases List.mem_cons.mp hhub with heq | hmem
        · rw [heq]
          exact hmax_le _ (List.mem_cons_self _ _)
        · exact hmax_le _ (List.mem_cons_of_mem _
            (List.mem_map_of_mem (bridgeGet (bridgeScoresOf data.kbNodes)) hmem))
  · norm_num +decide [clustersOf, findClustersGo, explore, adjOf, adjStep,
      setIfAbsent, addNbr, modifyA, adjGet, getA, exCluster, exEmpty, mkRel,
      List.filter, List.foldl, List.find?]
  · norm_num +decide [hubOf, bridgeGet, bridgeScoresOf, bridgeStep, getA,
      modifyA, jsOrStr, jsOrNum, exCluster, exEmpty, List.foldl, List.find?]

/-- Witness for C8: the hub decomposition applied to the concrete cluster. -/
theorem C8_cluster_hub_witness :
    clustersOf exCluster = [["A", "B", "C"]] ∧
    hubOf (bridgeGet (bridgeScoresOf exCluster.kbNodes)) ["A", "B", "C"] = "B" ∧
    (mkClusterStory exCluster ["A", "B", "C"]).id = "cluster-" ++ "B" := by
  refine ⟨C8_cluster_hub.2.1, C8_cluster_hub.2.2, ?_⟩
  have h := (C8_cluster_hub.1 exCluster ["A", "B", "C"]
    (by rw [C8_cluster_hub.2.1]; exact List.mem_singleton.mpr rfl))
  rcases h with ⟨pre, post, _, _, _, _, hid⟩
  rw [hid, C8_cluster_hub.2.2]

/-! ## Claim C7: totalMoney nonnegativity -/

/-- Sum of a nonnegative-valued map is nonnegative. -/
theorem sum_map_nonneg {α : Type} {l : List α} {f : α → ℚ}
    (h : ∀ x ∈ l, 0 ≤ f x) : 0 ≤ (l.map f).sum := by
  apply List.sum_nonneg
  intro q hq
  rcases List.mem_map.mp hq with ⟨x, hx, rfl⟩
  exact h x hx

/-- Nonnegativity of the chained numeric defaulting of line 234. -/
theorem crossAmt_nonneg {s : Signal}
    (ha : 0 ≤ jsOrNum s.details.amount 0)
    (ht : 0 ≤ jsOrNum s.details.total_amount 0) : 0 ≤ crossAmt s := by
  unfold crossAmt
  rcases hto : s.details.total_amount with _ | q
  · simp only [jsOrNum]
    exact ha
  · rw [hto] at ht
    by_cases hq : q = 0
    · simp only [jsOrNum, if_pos hq]
      exact ha
    · simp only [jsOrNum, if_neg hq]
      simp only [jsOrNum, if_neg hq] at ht
      exact ht

/-- Pairs of a modifyA come from the original list, with the value at the
touched key transformed. -/
theorem mem_modifyA {β : Type} {m : List (String × β)} {k : String}
    {f : β → β} {p : String × β} (h : p ∈ modifyA m k f) :
    p ∈ m ∨ ∃ q, (k, q) ∈ m ∧ p = (k, f q) := by
  unfold modifyA at h
  rcases List.mem_map.mp h with ⟨r, hr, hrp⟩
  by_cases hk : r.1 = k
  · right
    rw [if_pos hk] at hrp
    exact ⟨r.2, by rw [← hk]; exact hr, hrp.symm⟩
  · left
    rw [if_neg hk] at hrp
    rw [← hrp]
    exact hr

/-- Every accumulated per-entity disbursement total is nonnegative when
every defaulted amount is. -/
theorem entityDisbursementsOf_nonneg {ds : List FecDisbursement}
    (hds : ∀ d ∈ ds, 0 ≤ disbAmt d) :
    ∀ p ∈ entityDisbursementsOf ds, 0 ≤ p.2 := by
  unfold entityDisbursementsOf
  suffices hgen : ∀ (l : List FecDisbursement) (acc : List (String × ℚ)),
      (∀ d ∈ l, 0 ≤ disbAmt d) → (∀ p ∈ acc, 0 ≤ p.2) →
      ∀ p ∈ l.foldl (fun m d =>
        match jsTruthy d.entity_id with
        | none => m
        | some eid =>
          if eid ∈ m.map Prod.fst then modifyA m eid (fun q => q + disbAmt d)
          else m ++ [(eid, disbAmt d)]) acc, 0 ≤ p.2 by
    exact hgen ds [] hds (by simp)
  intro l
  induction l with
  | nil => intro acc _ hacc p hp; exact hacc p hp
  | cons d t ih =>
    intro acc hl hacc p hp
    rw [List.foldl_cons] at hp
    have hd0 : 0 ≤ disbAmt d := hl d (List.mem_cons_self d t)
    have ht : ∀ x ∈ t, 0 ≤ disbAmt x := fun x hx => hl x (List.mem_cons_of_mem d hx)
    rcases htr : jsTruthy d.entity_id with _ | eid
    · simp only [htr] at hp
      exact ih acc ht hacc p hp
    · simp only [htr] at hp
      by_cases hmem : eid ∈ acc.map Prod.fst
      · rw [if_pos hmem] at hp
        refine ih _ ht ?_ p hp
        intro r hr
        rcases mem_modifyA hr with hr | ⟨q, hq, rfl⟩
        · exact hacc r hr
        · have := hacc (eid, q) hq
          simp only at this ⊢
          linarith
      · rw [if_neg hmem] at hp
        refine ih _ ht ?_ p hp
        intro r hr
        rcases List.mem_append.mp hr with hr | hr
        · exact hacc r hr
        · rcases List.mem_singleton.mp hr with rfl
          exact hd0

/-- The cluster-money fold stays nonnegative. -/
theorem clusterMoney_nonneg {m : List (String × ℚ)}
    (hm : ∀ p ∈ m, 0 ≤ p.2) (cluster : List String) :
    0 ≤ cluster.foldl (fun sum id => sum + ((getA m id).getD 0)) 0 := by
  suffices hgen : ∀ (l : List String) (a : ℚ), 0 ≤ a →
      0 ≤ l.foldl (fun sum id => sum + ((getA m id).getD 0)) a by
    exact hgen cluster 0 le_rfl
  intro l
  induction l with
  | nil => intro a ha; simpa using ha
  | cons x t ih =>
    intro a ha
    rw [List.foldl_cons]
    apply ih
    have h0 : 0 ≤ (getA m x).getD 0 := by
      rcases hg : getA m x with _ | q
      · simp
      · unfold getA at hg
        rcases Option.map_eq_some'.mp hg with ⟨r, hr, hq⟩
        have := hm r (List.mem_of_find?_eq_some hr)
        simpa [hq] using this
    linarith

/-- Hypotheses of the amended nonnegativity claim: every defaulted
disbursement amount and every defaulted signal detail amount is
nonnegative. -/
def NonnegInput (data : ClassificationInput) : Prop :=
  (∀ d ∈ data.disbursements, 0 ≤ disbAmt d) ∧
  (∀ s ∈ data.signals, 0 ≤ jsOrNum s.details.amount 0 ∧
    0 ≤ jsOrNum s.details.total_amount 0)

theorem vendorSiphoning_money {data : ClassificationInput} {s : ClassifiedStory}
    (hd : ∀ d ∈ data.disbursements, 0 ≤ disbAmt d)
    (h : s ∈ detectVendorSiphoning data) : 0 ≤ s.totalMoney := by
  unfold detectVendorSiphoning at h
  rcases List.mem_filterMap.mp h with ⟨p, hp, hsome⟩
  have hsub : ∀ d ∈ p.2, 0 ≤ disbAmt d := by
    rcases p with ⟨v, g⟩
    rcases vendorMapOf_entry hp with ⟨hg, _, _⟩
    subst hg
    intro d hdm
    exact hd d (List.mem_of_mem_filter hdm)
  have htot : 0 ≤ vendorGroupTotal p.2 := sum_map_nonneg hsub
  unfold siphonStoryFor at hsome
  by_cases h1 : 3 ≤ (payerEntityList data p.2).length ∧ 50000 ≤ vendorGroupTotal p.2
  · rw [if_pos h1] at hsome
    have hs := Option.some.inj hsome
    rw [← hs]
    exact htot
  · rw [if_neg h1] at hsome
    by_cases h2 : 3 ≤ (payerCommitteeList p.2).length ∧ 20000 ≤ vendorGroupTotal p.2
    · rw [if_pos h2] at hsome
      have hs := Option.some.inj hsome
      rw [← hs]
      exact htot
    · rw [if_neg h2] at hsome
      cases hsome

theorem crossCampaign_money {data : ClassificationInput} {s : ClassifiedStory}
    (hs : ∀ sg ∈ data.signals, 0 ≤ jsOrNum sg.details.amount 0 ∧
      0 ≤ jsOrNum sg.details.total_amount 0)
    (h : s ∈ detectCrossCampaignNetworks data) : 0 ≤ s.totalMoney := by
  unfold detectCrossCampaignNetworks at h
  by_cases h0 : (crossSignalsOf data).length = 0
  · rw [if_pos h0] at h
    cases h
  · rw [if_neg h0] at h
    rcases List.mem_filterMap.mp h with ⟨p, hp, hsome⟩
    by_cases h1 : (crossEntityIds p.2).length < 2
    · rw [if_pos h1] at hsome
      cases hsome
    · rw [if_neg h1] at hsome
      have hseq := Option.some.inj hsome
      rw [← hseq]
      show 0 ≤ (p.2.map crossAmt).sum
      apply sum_map_nonneg
      intro sg hsg
      have hsg2 : sg ∈ data.signals := by
        rcases groupByKey_mem hp with ⟨hgp, _⟩
        rw [hgp] at hsg
        exact List.mem_of_mem_filter (List.mem_of_mem_filter hsg)
      exact crossAmt_nonneg (hs sg hsg2).1 (hs sg hsg2).2

theorem familyPayments_money {data : ClassificationInput} {s : ClassifiedStory}
    (hs : ∀ sg ∈ data.signals, 0 ≤ jsOrNum sg.details.amount 0 ∧
      0 ≤ jsOrNum sg.details.total_amount 0)
    (h : s ∈ detectFamilyPayments data) : 0 ≤ s.totalMoney := by
  unfold detectFamilyPayments at h
  by_cases h0 : (spousalSignalsOf data).length = 0
  · rw [if_pos h0] at h
    cases h
  · rw [if_neg h0] at h
    rcases List.mem_map.mp h with ⟨p, hp, hseq⟩
    rw [← hseq]
    show 0 ≤ (p.2.map (fun sg => jsOrNum sg.details.amount 0)).sum
    apply sum_map_nonneg
    intro sg hsg
    rcases groupByKey_mem hp with ⟨hgp, _⟩
    rw [hgp] at hsg
    exact (hs sg (List.mem_of_mem_filter (List.mem_of_mem_filter hsg))).1

theorem highVolume_money {data : ClassificationInput} {s : ClassifiedStory}
    (hs : ∀ sg ∈ data.signals, 0 ≤ jsOrNum sg.details.amount 0 ∧
      0 ≤ jsOrNum sg.details.total_amount 0)
    (h : s ∈ detectHighVolumePassThrough data) : 0 ≤ s.totalMoney := by
  unfold detectHighVolumePassThrough at h
  rcases List.mem_filterMap.mp h with ⟨p, hp, hsome⟩
  by_cases h1 : hvTotal p.2 < 50000
  · rw [if_pos h1] at hsome
    cases hsome
  · rw [if_neg h1] at hsome
    have hseq := Option.some.inj hsome
    rw [← hseq]
    show 0 ≤ hvTotal p.2
    apply sum_map_nonneg
    intro sg hsg
    rcases groupByKey_mem hp with ⟨hgp, _⟩
    rw [hgp] at hsg
    exact (hs sg (List.mem_of_mem_filter (List.mem_of_mem_filter hsg))).2

theorem darkMoney_money {data : ClassificationInput} {s : ClassifiedStory}
    (hd : ∀ d ∈ data.disbursements, 0 ≤ disbAmt d)
    (h : s ∈ detectDarkMoneyClusters data) : 0 ≤ s.totalMoney := by
  unfold detectDarkMoneyClusters at h
  by_cases h0 : data.relationships.length < 2
  · rw [if_pos h0] at h
    cases h
  · rw [if_neg h0] at h
    rcases List.mem_map.mp h with ⟨c, hc, hseq⟩
    rw [← hseq]
    show 0 ≤ c.foldl (fun sum id =>
      sum + ((getA (entityDisbursementsOf data.disbursements) id).getD 0)) 0
    exact clusterMoney_nonneg (entityDisbursementsOf_nonneg hd) c

theorem invStories_money {data : ClassificationInput} {s : ClassifiedStory}
    (hd : ∀ d ∈ data.disbursements, 0 ≤ disbAmt d) :
    ∀ {invs : List MmixEntry} {acc : List ClassifiedStory},
      s ∈ invGo data acc invs → 0 ≤ s.totalMoney := by
  intro invs
  induction invs with
  | nil => intro acc h; cases h
  | cons inv rest ih =>
    intro acc h
    unfold invGo at h
    split_ifs at h with h1 h2
    · exact ih h
    · exact ih h
    · rcases List.mem_cons.mp h with hse | h
      · rw [hse]
        show 0 ≤ ((data.disbursements.filter
          (fun d => d.entity_id = some inv.entity_id)).map disbAmt).sum
        apply sum_map_nonneg
        intro d hdm
        exact hd d (List.mem_of_mem_filter hdm)
      · exact ih h

/-- Counterexample to C7 as stated: on the snapshot whose two
cross-campaign signals carry the free-form amount -100, classifyStories
emits a story with totalMoney -200, which is negative. -/
theorem C7_counterexample :
    (classifyStories exNegAmount).map (fun s => s.totalMoney) = [(-200 : ℚ)] ∧
    ((-200 : ℚ) < 0) := by
  constructor
  · norm_num +decide [classifyStories, storiesWithFallback, allDetectorStories,
      preInvestigationStories, detectVendorSiphoning, siphonStoryFor,
      siphonEntityStory, siphonCommitteeStory, vendorMapOf, payerEntityList,
      payerCommitteeList, vendorGroupTotal, normVendorName, vendorKeyOk,
      genericVendorNames, committeeKeyOf, latestDate,
      detectCrossCampaignNetworks, crossSignalsOf, crossVendorOf, crossAmt,
      crossEntityIds, mkCrossStory, detectRevolvingDoor, ldaSourceOk,
      findingLobbyists, revolvingStoryFor, mkRevolvingStory,
      detectFamilyPayments, spousalSignalsOf, mkFamilyStory,
      detectSanctionsFlags, screeningGroups, screeningList, mkSanctionsStory,
      jsIncludes, detectHighVolumePassThrough, hvSignalsOf, hvTotal,
      mkHighVolStory, detectDarkMoneyClusters, clustersOf, adjOf, adjStep,
      addNbr, setIfAbsent, modifyA, getA, adjGet, findClustersGo, explore,
      bridgeScoresOf, bridgeStep, bridgeGet, entityDisbursementsOf, hubOf,
      jsMaxList, mkClusterStory, underscoresToSpaces,
      detectInvestigationStories, invGo, mkInvStory, alreadyCovered,
      formatSourceLabel, dataLoadedStory, storyLE, severityOrder, groupByKey,
      dedupFirst, entityName, lookupEntity, jsOrStr, jsOrNum, jsTruthy,
      jsToUpper, jsTrim, jsSlice, jsMaxStr, disbAmt, List.insertionSort,
      List.orderedInsert, List.filterMap, List.filter, List.foldl, List.find?,
      List.headD, List.head?, List.take, List.flatten, List.any, List.all,
      Option.bind, Option.getD, exNegAmount, exEmpty]
  · norm_num

/-- C7 amended: every story returned by classifyStories has totalMoney at
least 0 provided the snapshot's defaulted disbursement amounts and the
defaulted amount and total_amount fields of the signals' free-form details
are nonnegative (without that proviso, negative free-form amounts propagate
into negative story totals, as the counterexample shows). -/
theorem C7_totalMoney_nonneg_amended (data : ClassificationInput)
    (hneg : NonnegInput data) :
    ∀ s ∈ classifyStories data, 0 ≤ s.totalMoney := by
  rcases hneg with ⟨hd, hs⟩
  intro s hsmem
  have hperm : (classifyStories data).Perm (storiesWithFallback data) :=
    List.perm_insertionSort storyLE (storiesWithFallback data)
  have hmem := hperm.mem_iff.mp hsmem
  have hdl : 0 ≤ (dataLoadedStory data).totalMoney := by
    show 0 ≤ (data.disbursements.map disbAmt).sum
    exact sum_map_nonneg hd
  have hdet : s ∈ allDetectorStories data → 0 ≤ s.totalMoney := by
    intro h
    unfold allDetectorStories preInvestigationStories at h
    simp only [List.mem_append] at h
    rcases h with ((((((h | h) | h) | h) | h) | h) | h) | h
    · exact vendorSiphoning_money hd h
    · exact crossCampaign_money hs h
    · rcases detectRevolvingDoor_shape h with ⟨hpat, _⟩
      have : s.totalMoney = 0 := by
        unfold detectRevolvingDoor at h
        rcases List.mem_flatten.mp h with ⟨l, hl, hsl⟩
        rcases List.mem_map.mp hl with ⟨inv, _, hleq⟩
        subst hleq
        rcases List.mem_filterMap.mp hsl with ⟨f, _, hsome⟩
        unfold revolvingStoryFor at hsome
        by_cases h1 : ((findingLobbyists f).getD []).length = 0
        · rw [if_pos h1] at hsome
          cases hsome
        · rw [if_neg h1] at hsome
          rw [← Option.some.inj hsome]
          rfl
      rw [this]
    · exact familyPayments_money hs h
    · have : s.totalMoney = 0 := by
        unfold detectSanctionsFlags at h
        by_cases h0 : data.screenings.length = 0
        · rw [if_pos h0] at h
          cases h
        · rw [if_neg h0] at h
          rcases List.mem_map.mp h with ⟨p, _, hseq⟩
          rw [← hseq]
          rfl
      rw [this]

    · exact highVolume_money hs h
    · exact darkMoney_money hd h
    · exact invStories_money hd h
  unfold storiesWithFallback at hmem
  by_cases hc : (allDetectorStories data).length = 0 ∧
      (0 < data.disbursements.length ∨ 0 < data.entities.length ∨
        0 < data.signals.length)
  · rw [if_pos hc] at hmem
    rcases List.mem_append.mp hmem with h | h
    · exact hdet h
    · rcases List.mem_singleton.mp h with rfl
      exact hdl
  · rw [if_neg hc] at hmem
    exact hdet hmem

/-- Witness for the amended C7 at the ACME snapshot. -/
theorem C7_totalMoney_nonneg_amended_witness :
    (classifyStories exAcme).Forall (fun s => 0 ≤ s.totalMoney) := by
  rw [List.forall_iff_forall_mem]
  intro s hs
  apply C7_totalMoney_nonneg_amended exAcme ?_ s hs
  constructor
  · intro d hd
    have hd' : d ∈ exAcme.disbursements := hd
    revert hd'
    norm_num +decide [exAcme, exEmpty, mkDisb]
    rintro (rfl | rfl | rfl) <;> norm_num [disbAmt, jsOrNum]
  · intro sg hsg
    cases hsg

/-! ## Claim C3: dark-money clusters are connected components.
Association-list lookup lemmas and the adjacency characterization. -/

theorem getA_cons {β : Type} (p : String × β) (t : List (String × β)) (k : String) :
    getA (p :: t) k = if p.1 = k then some p.2 else getA t k := by
  unfold getA
  by_cases hp : p.1 = k
  · rw [List.find?_cons_of_pos _ (by simp [hp]), if_pos hp]
    simp
  · rw [List.find?_cons_of_neg _ (by simp [hp]), if_neg hp]

theorem getA_eq_none_iff {β : Type} {l : List (String × β)} {k : String} :
    getA l k = none ↔ k ∉ l.map Prod.fst := by
  induction l with
  | nil => simp [getA]
  | cons p t ih =>
    rw [getA_cons, List.map_cons]
    by_cases hp : p.1 = k
    · rw [if_pos hp]
      simp [hp]
    · rw [if_neg hp, ih]
      constructor
      · intro h hmem
        rcases List.mem_cons.mp hmem with heq | hmem
        · exact hp heq.symm
        · exact h hmem
      · intro h hmem
        exact h (List.mem_cons_of_mem _ hmem)

theorem getA_append {β : Type} (l1 l2 : List (String × β)) (k : String) :
    getA (l1 ++ l2) k = (getA l1 k).orElse (fun _ => getA l2 k) := by
  unfold getA
  rw [List.find?_append]
  cases List.find? (fun p => p.1 = k) l1 <;> simp

theorem keys_modifyA {β : Type} (l : List (String × β)) (k : String) (f : β → β) :
    (modifyA l k f).map Prod.fst = l.map Prod.fst := by
  unfold modifyA
  rw [List.map_map]
  apply List.map_congr_left
  intro p _
  by_cases hp : p.1 = k
  · simp [hp]
  · simp [hp]

theorem getA_modifyA {β : Type} (l : List (String × β)) (k k' : String) (f : β → β) :
    getA (modifyA l k f) k' =
      if k' = k then (getA l k).map f else getA l k' := by
  induction l with
  | nil => by_cases h : k' = k <;> simp [modifyA, getA, h]
  | cons p t ih =>
    show getA ((if p.1 = k then (k, f p.2) else p) :: modifyA t k f) k' = _
    by_cases hp : p.1 = k
    · by_cases hk : k' = k
      · subst hk
        simp [getA_cons, hp]
      · have hpk : ¬ p.1 = k' := fun h => hk (by rw [← h, hp])
        have hkk : ¬ k = k' := fun h => hk h.symm
        simp [getA_cons, ih, hp, hk, hpk, hkk]
    · by_cases hk : k' = k
      · subst hk
        simp [getA_cons, ih, hp]
      · by_cases hpk : p.1 = k'
        · simp [getA_cons, ih, hp, hk, hpk]
        · simp [getA_cons, ih, hp, hk, hpk]

theorem mem_keys_of_getA {β : Type} {l : List (String × β)} {k : String} {v : β}
    (h : getA l k = some v) : k ∈ l.map Prod.fst := by
  by_contra hk
  rw [← @getA_eq_none_iff β l k] at hk
  rw [hk] at h
  cases h

/-- adjGet through a setIfAbsent with empty default is unchanged. -/
theorem adjGet_setIfAbsent (l : List (String × List String)) (k k' : String) :
    adjGet (setIfAbsent l k []) k' = adjGet l k' := by
  unfold setIfAbsent
  by_cases hk : k ∈ l.map Prod.fst
  · rw [if_pos hk]
  · rw [if_neg hk]
    unfold adjGet
    rw [getA_append]
    rcases hg : getA l k' with _ | v
    · show ((Option.orElse none fun _ => getA [(k, [])] k')).getD [] =
        (Option.none).getD []
      rw [getA_cons]
      by_cases hk2 : k = k' <;> simp [hk2, getA]
    · simp [Option.orElse]

theorem keys_setIfAbsent (l : List (String × List String)) (k : String)
    (v : List String) :
    (setIfAbsent l k v).map Prod.fst =
      if k ∈ l.map Prod.fst then l.map Prod.fst else l.map Prod.fst ++ [k] := by
  unfold setIfAbsent
  by_cases hk : k ∈ l.map Prod.fst
  · rw [if_pos hk, if_pos hk]
  · rw [if_neg hk, if_neg hk]
    simp

theorem mem_keys_setIfAbsent (l : List (String × List String)) (k k' : String)
    (v : List String) :
    k' ∈ (setIfAbsent l k v).map Prod.fst ↔ k' ∈ l.map Prod.fst ∨ k' = k := by
  rw [keys_setIfAbsent]
  by_cases hk : k ∈ l.map Prod.fst
  · rw [if_pos hk]
    constructor
    · exact Or.inl
    · rintro (h | rfl)
      · exact h
      · exact hk
  · rw [if_neg hk]
    simp

/-- Membership in an adjacency set after addNbr, provided the key exists. -/
theorem mem_adjGet_addNbr {l : List (String × List String)} {k : String}
    (hk : k ∈ l.map Prod.fst) (n k' m : String) :
    m ∈ adjGet (addNbr l k n) k' ↔ m ∈ adjGet l k' ∨ (k' = k ∧ m = n) := by
  unfold addNbr adjGet
  rw [getA_modifyA]
  by_cases hkk : k' = k
  · rw [if_pos hkk]
    subst hkk
    rcases hg : getA l k' with _ | s
    · exact absurd hk (getA_eq_none_iff.mp hg)
    · simp only [Option.map_some', Option.getD_some]
      by_cases hn : n ∈ s
      · rw [if_pos hn]
        constructor
        · exact Or.inl
        · rintro (h | ⟨_, rfl⟩)
          · exact h
          · exact hn
      · rw [if_neg hn, List.mem_append, List.mem_singleton]
        constructor
        · rintro (h | rfl)
          · exact Or.inl h
          · exact Or.inr ⟨by trivial, by trivial⟩
        · rintro (h | ⟨_, rfl⟩)
          · exact Or.inl h
          · exact Or.inr rfl
  · rw [if_neg hkk]
    constructor
    · exact Or.inl
    · rintro (h | ⟨hc, _⟩)
      · exact h
      · exact absurd hc hkk

theorem keys_addNbr (l : List (String × List String)) (k n : String) :
    (addNbr l k n).map Prod.fst = l.map Prod.fst :=
  keys_modifyA l k _

/-- Keys of the adjacency structure are the endpoints of the relationships. -/
theorem adjOf_keys (rels : List Relationship) (k : String) :
    k ∈ (adjOf rels).map Prod.fst ↔
      ∃ r ∈ rels, r.source_entity_id = k ∨ r.target_entity_id = k := by
  induction rels using List.reverseRecOn with
  | nil => simp [adjOf]
  | append_singleton rs r ih =>
    unfold adjOf
    rw [List.foldl_append, List.foldl_cons, List.foldl_nil]
    show k ∈ (adjStep (adjOf rs) r).map Prod.fst ↔ _
    unfold adjStep
    rw [keys_addNbr, keys_addNbr, mem_keys_setIfAbsent, mem_keys_setIfAbsent]
    rw [ih]
    constructor
    · rintro ((⟨r', hr', h⟩ | h) | h)
      · exact ⟨r', List.mem_append_left _ hr', h⟩
      · exact ⟨r, List.mem_append_right _ (List.mem_singleton.mpr rfl), Or.inl h.symm⟩
      · exact ⟨r, List.mem_append_right _ (List.mem_singleton.mpr rfl), Or.inr h.symm⟩
    · rintro ⟨r', hr', h⟩
      rcases List.mem_append.mp hr' with hr' | hr'
      · exact Or.inl (Or.inl ⟨r', hr', h⟩)
      · rcases List.mem_singleton.mp hr' with rfl
        rcases h with h | h
        · exact Or.inl (Or.inr h.symm)
        · exact Or.inr h.symm

/-- Adjacency characterization: n is a recorded neighbor of k exactly when
some relationship links k and n in either direction. -/
theorem adjOf_mem (rels : List Relationship) (k n : String) :
    n ∈ adjGet (adjOf rels) k ↔
      ∃ r ∈ rels, (r.source_entity_id = k ∧ r.target_entity_id = n) ∨
        (r.source_entity_id = n ∧ r.target_entity_id = k) := by
  induction rels using List.reverseRecOn with
  | nil => simp [adjOf, adjGet, getA]
  | append_singleton rs r ih =>
    unfold adjOf
    rw [List.foldl_append, List.foldl_cons, List.foldl_nil]
    show n ∈ adjGet (adjStep (adjOf rs) r) k ↔ _
    unfold adjStep
    have hsrc : r.source_entity_id ∈
        ((setIfAbsent (setIfAbsent (adjOf rs) r.source_entity_id [])
          r.target_entity_id []).map Prod.fst) := by
      rw [mem_keys_setIfAbsent, mem_keys_setIfAbsent]
      exact Or.inl (Or.inr rfl)
    have htgt : r.target_entity_id ∈
        ((addNbr (setIfAbsent (setIfAbsent (adjOf rs) r.source_entity_id [])
          r.target_entity_id []) r.source_entity_id r.target_entity_id).map
            Prod.fst) := by
      rw [keys_addNbr, mem_keys_setIfAbsent]
      exact Or.inr rfl
    rw [mem_adjGet_addNbr htgt, mem_adjGet_addNbr hsrc]
    rw [adjGet_setIfAbsent, adjGet_setIfAbsent]
    rw [ih]
    constructor
    · rintro ((⟨r', hr', h⟩ | ⟨rfl, rfl⟩) | ⟨rfl, rfl⟩)
      · exact ⟨r', List.mem_append_left _ hr', h⟩
      · exact ⟨r, List.mem_append_right _ (List.mem_singleton.mpr rfl),
          Or.inl ⟨rfl, rfl⟩⟩
      · exact ⟨r, List.mem_append_right _ (List.mem_singleton.mpr rfl),
          Or.inr ⟨rfl, rfl⟩⟩
    · rintro ⟨r', hr', h⟩
      rcases List.mem_append.mp hr' with hr' | hr'
      · exact Or.inl (Or.inl ⟨r', hr', h⟩)
      · rcases List.mem_singleton.mp hr' with rfl
        rcases h with ⟨h1, h2⟩ | ⟨h1, h2⟩
        · exact Or.inl (Or.inr ⟨h1.symm, h2.symm⟩)
        · exact Or.inr ⟨h2.symm, h1.symm⟩

/-! ### Connected components of the relationship graph (claim C3) -/

/-- Reachability along the adjacency structure built by the detector. -/
def Reach (adj : List (String × List String)) : String → String → Prop :=
  Relation.ReflTransGen (fun a b => b ∈ adjGet adj a)

/-- Edge relation read off the snapshot relationship rows directly: the two
endpoints of any relationship row, in either direction, irrespective of the
is_current flag (the detector never consults it). -/
def EdgeAdj (data : ClassificationInput) (a b : String) : Prop :=
  ∃ r ∈ data.relationships,
    (r.source_entity_id = a ∧ r.target_entity_id = b) ∨
    (r.source_entity_id = b ∧ r.target_entity_id = a)

/-- Connectivity over the snapshot relationship rows. -/
def EdgeReach (data : ClassificationInput) : String → String → Prop :=
  Relation.ReflTransGen (EdgeAdj data)

/-- The adjacency structure built from relationships is symmetric. -/
theorem adjOf_symm (rels : List Relationship) :
    ∀ a b, b ∈ adjGet (adjOf rels) a → a ∈ adjGet (adjOf rels) b := by
  intro a b h
  rw [adjOf_mem] at h ⊢
  rcases h with ⟨r, hr, h⟩
  exact ⟨r, hr, h.symm⟩

/-- Reachability in the built adjacency agrees with connectivity over the
relationship rows. -/
theorem reach_adjOf_iff (data : ClassificationInput) (a b : String) :
    Reach (adjOf data.relationships) a b ↔ EdgeReach data a b := by
  constructor
  · intro h
    refine Relation.ReflTransGen.mono ?_ h
    intro x y hxy
    exact (adjOf_mem data.relationships x y).mp hxy
  · intro h
    refine Relation.ReflTransGen.mono ?_ h
    intro x y hxy
    exact (adjOf_mem data.relationships x y).mpr hxy

/-- Reachability is symmetric whenever the adjacency is. -/
theorem reach_symm (adj : List (String × List String))
    (hsym : ∀ a b, b ∈ adjGet adj a → a ∈ adjGet adj b)
    {a b : String} (h : Reach adj a b) : Reach adj b a := by
  have hsymm : Symmetric (fun x y : String => y ∈ adjGet adj x) :=
    fun x y hxy => hsym x y hxy
  exact Relation.ReflTransGen.symmetric hsymm h

theorem explore_nil (adj : List (String × List String)) (visited cluster : List String) :
    explore adj visited cluster [] = (cluster, visited) := by
  simp [explore]

theorem explore_cons_mem (adj : List (String × List String))
    (visited cluster : List String) (cur : String)
    (rest : List String) (h : cur ∈ visited) :
    explore adj visited cluster (cur :: rest) = explore adj visited cluster rest := by
  rw [explore]
  simp [h]

theorem explore_cons_new (adj : List (String × List String))
    (visited cluster : List String) (cur : String)
    (rest : List String) (h : ¬ cur ∈ visited) :
    explore adj visited cluster (cur :: rest) =
      explore adj (cur :: visited) (cluster ++ [cur])
        (((adjGet adj cur).filter (fun n => ¬ n ∈ cur :: visited)).reverse ++ rest) := by
  rw [explore]
  simp [h]

/-- Postcondition of the traversal loop: started from a sound intermediate
state, it returns the cluster of everything reachable from the start entity
that was not already visited, and the visited set grows by exactly that
cluster. -/
theorem explore_post (adj : List (String × List String)) (V0 : List String)
    (s : String) (visited cluster queue : List String) :
    (∀ x, x ∈ visited ↔ (x ∈ V0 ∨ x ∈ cluster)) →
    cluster.Nodup →
    (∀ x ∈ cluster, ¬ x ∈ V0) →
    (∀ x ∈ cluster, Reach adj s x) →
    (∀ x ∈ queue, Reach adj s x) →
    (∀ x ∈ cluster, ∀ y ∈ adjGet adj x, y ∈ visited ∨ y ∈ queue) →
    (s ∈ cluster ∨ (s ∈ queue ∧ ¬ s ∈ visited)) →
    (∀ x, x ∈ (explore adj visited cluster queue).2 ↔
        (x ∈ V0 ∨ x ∈ (explore adj visited cluster queue).1)) ∧
    (explore adj visited cluster queue).1.Nodup ∧
    (∀ x ∈ (explore adj visited cluster queue).1, ¬ x ∈ V0) ∧
    (∀ x ∈ (explore adj visited cluster queue).1, Reach adj s x) ∧
    (∀ x ∈ (explore adj visited cluster queue).1, ∀ y ∈ adjGet adj x,
        y ∈ (explore adj visited cluster queue).2) ∧
    s ∈ (explore adj visited cluster queue).1 := by
  induction visited, cluster, queue using explore.induct adj with
  | case1 visited cluster =>
    intro ha hnd hv0 hc hd he hf
    rw [explore_nil]
    refine ⟨ha, hnd, hv0, hc, ?_, ?_⟩
    · intro x hx y hy
      rcases he x hx y hy with h1 | h1
      · exact h1
      · simp at h1
    · rcases hf with h1 | ⟨h1, _⟩
      · exact h1
      · simp at h1
  | case2 visited cluster cur rest h ih =>
    intro ha hnd hv0 hc hd he hf
    rw [explore_cons_mem _ _ _ _ _ h]
    apply ih ha hnd hv0 hc
    · intro x hx
      exact hd x (List.mem_cons_of_mem _ hx)
    · intro x hx y hy
      rcases he x hx y hy with hv | hq
      · exact Or.inl hv
      · rcases List.mem_cons.mp hq with rfl | hq
        · exact Or.inl h
        · exact Or.inr hq
    · rcases hf with hs | ⟨hs, hnv⟩
      · exact Or.inl hs
      · rcases List.mem_cons.mp hs with rfl | hs
        · exact absurd h hnv
        · exact Or.inr ⟨hs, hnv⟩
  | case3 visited cluster cur rest h v1 nbrs1 ih =>
    intro ha hnd hv0 hc hd he hf
    rw [explore_cons_new _ _ _ _ _ h]
    have hsub : ∀ x ∈ cluster, x ∈ visited := fun x hx => (ha x).mpr (Or.inr hx)
    have hV0sub : ∀ x ∈ V0, x ∈ visited := fun x hx => (ha x).mpr (Or.inl hx)
    have hcurC : ¬ cur ∈ cluster := fun hx => h (hsub cur hx)
    have hcurV0 : ¬ cur ∈ V0 := fun hx => h (hV0sub cur hx)
    have hreach_cur : Reach adj s cur := hd cur (List.mem_cons_self _ _)
    apply ih
    · intro x
      constructor
      · intro hx
        rcases List.mem_cons.mp hx with rfl | hx
        · exact Or.inr (List.mem_append_right _ (List.mem_singleton.mpr rfl))
        · rcases (ha x).mp hx with h0 | h0
          · exact Or.inl h0
          · exact Or.inr (List.mem_append_left _ h0)
      · rintro (h0 | h0)
        · exact List.mem_cons_of_mem _ ((ha x).mpr (Or.inl h0))
        · rcases List.mem_append.mp h0 with h0 | h0
          · exact List.mem_cons_of_mem _ ((ha x).mpr (Or.inr h0))
          · rcases List.mem_singleton.mp h0 with rfl
            exact List.mem_cons_self _ _
    · rw [List.nodup_append]
      refine ⟨hnd, List.nodup_singleton _, ?_⟩
      intro a ha1 hb
      rcases List.mem_singleton.mp hb with rfl
      exact hcurC ha1
    · intro x hx
      rcases List.mem_append.mp hx with hx | hx
      · exact hv0 x hx
      · rcases List.mem_singleton.mp hx with rfl
        exact hcurV0
    · intro x hx
      rcases List.mem_append.mp hx with hx | hx
      · exact hc x hx
      · rcases List.mem_singleton.mp hx with rfl
        exact hreach_cur
    · intro x hx
      rcases List.mem_append.mp hx with hx | hx
      · rw [List.mem_reverse] at hx
        have hxn := List.mem_of_mem_filter hx
        exact Relation.ReflTransGen.tail hreach_cur hxn
      · exact hd x (List.mem_cons_of_mem _ hx)
    · intro x hx y hy
      rcases List.mem_append.mp hx with hx | hx
      · rcases he x hx y hy with hv | hq
        · exact Or.inl (List.mem_cons_of_mem _ hv)
        · rcases List.mem_cons.mp hq with rfl | hq
          · exact Or.inl (List.mem_cons_self _ _)
          · exact Or.inr (List.mem_append_right _ hq)
      · rcases List.mem_singleton.mp hx with rfl
        by_cases hyv : y ∈ x :: visited
        · exact Or.inl hyv
        · refine Or.inr (List.mem_append_left _ ?_)
          rw [List.mem_reverse]
          exact List.mem_filter.mpr ⟨hy, by simp only [decide_eq_true_eq]; exact hyv⟩
    · rcases hf with hs | ⟨hs, hnv⟩
      · exact Or.inl (List.mem_append_left _ hs)
      · rcases List.mem_cons.mp hs with rfl | hs
        · exact Or.inl (List.mem_append_right _ (List.mem_singleton.mpr rfl))
        · by_cases hsc : s = cur
          · subst hsc
            exact Or.inl (List.mem_append_right _ (List.mem_singleton.mpr rfl))
          · refine Or.inr ⟨List.mem_append_right _ hs, ?_⟩
            intro hmem
            rcases List.mem_cons.mp hmem with h1 | h1
            · exact hsc h1
            · exact hnv h1


/-- A Nodup list included in another list is no longer than it. -/
theorem nodup_subset_length_le {l1 l2 : List String} (h : l1.Nodup)
    (hsub : ∀ x ∈ l1, x ∈ l2) : l1.length ≤ l2.length :=
  (h.subperm fun x hx => hsub x hx).length_le

/-- Exploring from an unvisited start with a closed visited set yields exactly
the reachability class of the start. -/
theorem explore_component (adj : List (String × List String))
    (hsym : ∀ a b, b ∈ adjGet adj a → a ∈ adjGet adj b)
    (visited : List String)
    (hclosed : ∀ v ∈ visited, ∀ n ∈ adjGet adj v, n ∈ visited)
    (s : String) (hs : ¬ s ∈ visited) :
    (∀ x, x ∈ (explore adj visited [] [s]).2 ↔
      (x ∈ visited ∨ x ∈ (explore adj visited [] [s]).1)) ∧
    (explore adj visited [] [s]).1.Nodup ∧
    (∀ x ∈ (explore adj visited [] [s]).1, ¬ x ∈ visited) ∧
    (∀ x, x ∈ (explore adj visited [] [s]).1 ↔ Reach adj s x) ∧
    (∀ v ∈ (explore adj visited [] [s]).2, ∀ n ∈ adjGet adj v,
      n ∈ (explore adj visited [] [s]).2) := by
  obtain ⟨ha, hnd, hv0, hreach, hcl, hsin⟩ :=
    explore_post adj visited s visited [] [s]
      (by intro x; simp)
      List.nodup_nil
      (by intro x hx; simp at hx)
      (by intro x hx; simp at hx)
      (by
        intro x hx
        rcases List.mem_singleton.mp hx with rfl
        exact Relation.ReflTransGen.refl)
      (by intro x hx; simp at hx)
      (Or.inr ⟨List.mem_singleton.mpr rfl, hs⟩)
  refine ⟨ha, hnd, hv0, ?_, ?_⟩
  · intro x
    constructor
    · exact hreach x
    · intro hr
      have hr2 : Relation.ReflTransGen (fun a b => b ∈ adjGet adj a) s x := hr
      induction hr2 with
      | refl => exact hsin
      | tail h1 h2 ih1 =>
        have hin2 := hcl _ (ih1 h1) _ h2
        rcases (ha _).mp hin2 with hv | hcl2
        · exact absurd (hclosed _ hv _ (hsym _ _ h2)) (hv0 _ (ih1 h1))
        · exact hcl2
  · intro v hv n hn
    rcases (ha v).mp hv with h1 | h1
    · exact (ha n).mpr (Or.inl (hclosed v h1 n hn))
    · exact hcl v h1 n hn

theorem findClustersGo_nil (adj : List (String × List String))
    (visited : List String) : findClustersGo adj visited [] = [] := rfl

theorem findClustersGo_cons (adj : List (String × List String))
    (visited : List String) (s : String) (rest : List String) :
    findClustersGo adj visited (s :: rest) =
      if s ∈ visited then findClustersGo adj visited rest
      else if 3 ≤ (explore adj visited [] [s]).1.length then
        (explore adj visited [] [s]).1 ::
          findClustersGo adj (explore adj visited [] [s]).2 rest
      else findClustersGo adj (explore adj visited [] [s]).2 rest := rfl

/-- Specification of the outer component loop: each returned cluster is a
Nodup reachability class of size at least 3 avoiding the initial visited
set; and an unvisited seed lies in some returned cluster exactly when at
least 3 distinct entities are reachable from it. -/
theorem findClustersGo_spec (adj : List (String × List String))
    (hsym : ∀ a b, b ∈ adjGet adj a → a ∈ adjGet adj b) :
    ∀ (seeds visited : List String),
      (∀ v ∈ visited, ∀ n ∈ adjGet adj v, n ∈ visited) →
      (∀ c ∈ findClustersGo adj visited seeds,
        c.Nodup ∧ 3 ≤ c.length ∧ (∀ x ∈ c, ¬ x ∈ visited) ∧
        (∀ x ∈ c, ∀ y, (y ∈ c ↔ Reach adj x y))) ∧
      (∀ v ∈ seeds, ¬ v ∈ visited →
        ((∃ c ∈ findClustersGo adj visited seeds, v ∈ c) ↔
          ∃ l : List String, l.Nodup ∧ 3 ≤ l.length ∧ ∀ x ∈ l, Reach adj v x)) := by
  intro seeds
  induction seeds with
  | nil =>
    intro visited hclosed
    constructor
    · intro c hc
      rw [findClustersGo_nil] at hc
      simp at hc
    · intro v hv
      simp at hv
  | cons s rest ih =>
    intro visited hclosed
    by_cases hs : s ∈ visited
    · rw [findClustersGo_cons, if_pos hs]
      obtain ⟨ihA, ihB⟩ := ih visited hclosed
      refine ⟨ihA, ?_⟩
      intro v hv hnv
      rcases List.mem_cons.mp hv with rfl | hv
      · exact absurd hs hnv
      · exact ihB v hv hnv
    · obtain ⟨hiff2, hnd, hnotv, hchar, hcl2⟩ :=
        explore_component adj hsym visited hclosed s hs
      obtain ⟨ihA, ihB⟩ := ih (explore adj visited [] [s]).2 hcl2
      have hsubvis : ∀ x ∈ visited, x ∈ (explore adj visited [] [s]).2 :=
        fun x hx => (hiff2 x).mpr (Or.inl hx)
      have hsubcl : ∀ x ∈ (explore adj visited [] [s]).1,
          x ∈ (explore adj visited [] [s]).2 :=
        fun x hx => (hiff2 x).mpr (Or.inr hx)
      have hsmem : s ∈ (explore adj visited [] [s]).1 :=
        (hchar s).mpr Relation.ReflTransGen.refl
      have hcharv : ∀ v ∈ (explore adj visited [] [s]).1, ∀ y,
          (y ∈ (explore adj visited [] [s]).1 ↔ Reach adj v y) := by
        intro v hv y
        have hsv : Reach adj s v := (hchar v).mp hv
        have hvs : Reach adj v s := reach_symm adj hsym hsv
        rw [hchar y]
        constructor
        · intro h1
          exact Relation.ReflTransGen.trans hvs h1
        · intro h1
          exact Relation.ReflTransGen.trans hsv h1
      by_cases hlen : 3 ≤ (explore adj visited [] [s]).1.length
      · rw [findClustersGo_cons, if_neg hs, if_pos hlen]
        constructor
        · intro c hc
          rcases List.mem_cons.mp hc with rfl | hc
          · exact ⟨hnd, hlen, hnotv, hcharv⟩
          · obtain ⟨h1, h2, h3, h4⟩ := ihA c hc
            exact ⟨h1, h2, fun x hx hxv => h3 x hx (hsubvis x hxv), h4⟩
        · intro v hv hnv
          rcases List.mem_cons.mp hv with rfl | hv
          · constructor
            · intro _
              exact ⟨_, hnd, hlen, fun x hx => (hchar x).mp hx⟩
            · intro _
              exact ⟨_, List.mem_cons_self _ _, hsmem⟩
          · by_cases hvr : v ∈ (explore adj visited [] [s]).1
            · constructor
              · intro _
                refine ⟨(explore adj visited [] [s]).1, hnd, hlen, ?_⟩
                intro x hx
                exact (hcharv v hvr x).mp hx
              · intro _
                exact ⟨_, List.mem_cons_self _ _, hvr⟩
            · have hv2 : ¬ v ∈ (explore adj visited [] [s]).2 := by
                intro hmem
                rcases (hiff2 v).mp hmem with h1 | h1
                · exact hnv h1
                · exact hvr h1
              rw [← ihB v hv hv2]
              constructor
              · rintro ⟨c, hc, hvc⟩
                rcases List.mem_cons.mp hc with rfl | hc
                · exact absurd hvc hvr
                · exact ⟨c, hc, hvc⟩
              · rintro ⟨c, hc, hvc⟩
                exact ⟨c, List.mem_cons_of_mem _ hc, hvc⟩
      · rw [findClustersGo_cons, if_neg hs, if_neg hlen]
        constructor
        · intro c hc
          obtain ⟨h1, h2, h3, h4⟩ := ihA c hc
          exact ⟨h1, h2, fun x hx hxv => h3 x hx (hsubvis x hxv), h4⟩
        · intro v hv hnv
          rcases List.mem_cons.mp hv with rfl | hv
          · constructor
            · rintro ⟨c, hc, hvc⟩
              obtain ⟨_, _, h3, _⟩ := ihA c hc
              exact absurd (hsubcl _ hsmem) (h3 _ hvc)
            · rintro ⟨l, hlnd, hllen, hlreach⟩
              exfalso
              have hle := nodup_subset_length_le hlnd
                (fun x hx => (hchar x).mpr (hlreach x hx))
              omega
          · by_cases hvr : v ∈ (explore adj visited [] [s]).1
            · constructor
              · rintro ⟨c, hc, hvc⟩
                obtain ⟨_, _, h3, _⟩ := ihA c hc
                exact absurd (hsubcl _ hvr) (h3 _ hvc)
              · rintro ⟨l, hlnd, hllen, hlreach⟩
                exfalso
                have hsubl : ∀ x ∈ l, x ∈ (explore adj visited [] [s]).1 := by
                  intro x hx
                  exact (hcharv v hvr x).mpr (hlreach x hx)
                have hle := nodup_subset_length_le hlnd hsubl
                omega
            · have hv2 : ¬ v ∈ (explore adj visited [] [s]).2 := by
                intro hmem
                rcases (hiff2 v).mp hmem with h1 | h1
                · exact hnv h1
                · exact hvr h1
              exact ihB v hv hv2


theorem clustersOf_eq (data : ClassificationInput) :
    clustersOf data = findClustersGo (adjOf data.relationships) []
      ((adjOf data.relationships).map Prod.fst) := rfl

/-- Characterization of clustersOf: the clusters are exactly the Nodup
connectivity classes of size at least 3 of the graph over every relationship
row of the snapshot. -/
theorem clustersOf_spec (data : ClassificationInput) :
    (∀ c ∈ clustersOf data, c.Nodup ∧ 3 ≤ c.length ∧
      ∀ x ∈ c, ∀ y, (y ∈ c ↔ EdgeReach data x y)) ∧
    (∀ v, (∃ c ∈ clustersOf data, v ∈ c) ↔
      ∃ l : List String, l.Nodup ∧ 3 ≤ l.length ∧ ∀ x ∈ l, EdgeReach data v x) := by
  have hsym := adjOf_symm data.relationships
  have hcle : ∀ v ∈ ([] : List String), ∀ n ∈ adjGet (adjOf data.relationships) v,
      n ∈ ([] : List String) := by
    intro v hv
    simp at hv
  obtain ⟨hA, hB⟩ := findClustersGo_spec (adjOf data.relationships) hsym
    ((adjOf data.relationships).map Prod.fst) [] hcle
  constructor
  · intro c hc
    rw [clustersOf_eq] at hc
    obtain ⟨h1, h2, _, h4⟩ := hA c hc
    refine ⟨h1, h2, ?_⟩
    intro x hx y
    rw [h4 x hx y, reach_adjOf_iff]
  · intro v
    by_cases hv : v ∈ (adjOf data.relationships).map Prod.fst
    · have hiff := hB v hv (by simp)
      rw [clustersOf_eq, hiff]
      constructor
      · rintro ⟨l, h1, h2, h3⟩
        exact ⟨l, h1, h2, fun x hx => (reach_adjOf_iff data v x).mp (h3 x hx)⟩
      · rintro ⟨l, h1, h2, h3⟩
        exact ⟨l, h1, h2, fun x hx => (reach_adjOf_iff data v x).mpr (h3 x hx)⟩
    · have hget : adjGet (adjOf data.relationships) v = [] := by
        unfold adjGet
        rw [getA_eq_none_iff.mpr hv]
        rfl
      have hsingle : ∀ y, Reach (adjOf data.relationships) v y → y = v := by
        intro y hy
        have hy2 : Relation.ReflTransGen
            (fun a b => b ∈ adjGet (adjOf data.relationships) a) v y := hy
        rcases Relation.ReflTransGen.cases_head hy2 with h1 | ⟨c, hc1, _⟩
        · exact h1.symm
        · rw [hget] at hc1
          simp at hc1
      constructor
      · rintro ⟨c, hc, hvc⟩
        exfalso
        rw [clustersOf_eq] at hc
        obtain ⟨h1, h2, _, h4⟩ := hA c hc
        have hle := nodup_subset_length_le h1 (fun y hy => by
          rw [hsingle y ((h4 v hvc y).mp hy)]
          exact List.mem_singleton.mpr (rfl : v = v))
        simp at hle
        omega
      · rintro ⟨l, hlnd, hllen, hlreach⟩
        exfalso
        have hle := nodup_subset_length_le hlnd (fun y hy => by
          rw [hsingle y ((reach_adjOf_iff data v y).mpr (hlreach y hy))]
          exact List.mem_singleton.mpr (rfl : v = v))
        simp at hle
        omega

set_option maxHeartbeats 1600000 in
/-- C3 (corrected): with at least two relationship rows, detectDarkMoneyClusters
emits one DARK_MONEY_CLUSTER story per cluster, where the clusters are
exactly the Nodup connectivity classes of size at least 3 of the undirected
graph whose edges are ALL relationship rows of the snapshot, active or not:
the detector never consults the is_current flag.  With fewer than two rows it
emits nothing.  An entity belongs to some cluster exactly when at least three
distinct entities are connected to it. -/
theorem C3_dark_money_components (data : ClassificationInput) :
    detectDarkMoneyClusters data =
      (if data.relationships.length < 2 then []
       else (clustersOf data).map (mkClusterStory data)) ∧
    (∀ c ∈ clustersOf data, c.Nodup ∧ 3 ≤ c.length ∧
      ∀ x ∈ c, ∀ y, (y ∈ c ↔ EdgeReach data x y)) ∧
    (∀ v, (∃ c ∈ clustersOf data, v ∈ c) ↔
      ∃ l : List String, l.Nodup ∧ 3 ≤ l.length ∧ ∀ x ∈ l, EdgeReach data v x) :=
  ⟨rfl, (clustersOf_spec data).1, (clustersOf_spec data).2⟩

set_option maxHeartbeats 1600000 in
/-- C3 counterexample: a snapshot whose relationship rows are all inactive
(is_current = false, edges A-B and B-C).  Per the claim, inactive edges
contribute no adjacency, so no DARK_MONEY_CLUSTER story should be emitted;
the code still clusters A, B, C together and emits a story. -/
theorem C3_counterexample :
    (∀ r ∈ exInactiveRels.relationships, r.is_current = false) ∧
    (detectDarkMoneyClusters exInactiveRels).map
      (fun st => (st.pattern, st.id, st.networkSize)) =
      [("DARK_MONEY_CLUSTER", "cluster-A", 3)] := by
  constructor
  · decide
  · norm_num +decide [detectDarkMoneyClusters, clustersOf, findClustersGo,
      explore, adjOf, adjStep, setIfAbsent, addNbr, modifyA, adjGet, getA,
      mkClusterStory, hubOf, bridgeGet, bridgeScoresOf, bridgeStep,
      entityDisbursementsOf, jsMaxList, jsOrStr, jsOrNum,
      exInactiveRels, exEmpty, mkRel, List.filter, List.foldl, List.find?]


/-! ### Claim C6: uniqueness of story ids -/

/-- First two characters of a story id, discriminating the emitting
detector. -/
def idTag (s : String) : List Char :=
  s.data.take 2

theorem idTag_append (p t : String) (c1 c2 : Char) (rest : List Char)
    (hp : p.data = c1 :: c2 :: rest) : idTag (p ++ t) = [c1, c2] := by
  unfold idTag
  rw [String.data_append, hp]
  rfl

theorem tag_siphon {data : ClassificationInput} {s : ClassifiedStory}
    (h : s ∈ detectVendorSiphoning data) : idTag s.id = ['s', 'i'] := by
  obtain ⟨_, t, hid⟩ := detectVendorSiphoning_shape h
  rw [hid]
  exact idTag_append _ _ _ _ _ rfl

theorem tag_cross {data : ClassificationInput} {s : ClassifiedStory}
    (h : s ∈ detectCrossCampaignNetworks data) : idTag s.id = ['c', 'r'] := by
  obtain ⟨_, t, hid⟩ := detectCrossCampaignNetworks_shape h
  rw [hid]
  exact idTag_append _ _ _ _ _ rfl

theorem tag_revolving {data : ClassificationInput} {s : ClassifiedStory}
    (h : s ∈ detectRevolvingDoor data) : idTag s.id = ['r', 'e'] := by
  obtain ⟨_, t, hid⟩ := detectRevolvingDoor_shape h
  rw [hid]
  exact idTag_append _ _ _ _ _ rfl

theorem tag_family {data : ClassificationInput} {s : ClassifiedStory}
    (h : s ∈ detectFamilyPayments data) : idTag s.id = ['f', 'a'] := by
  obtain ⟨_, t, hid⟩ := detectFamilyPayments_shape h
  rw [hid]
  exact idTag_append _ _ _ _ _ rfl

theorem tag_sanctions {data : ClassificationInput} {s : ClassifiedStory}
    (h : s ∈ detectSanctionsFlags data) : idTag s.id = ['s', 'a'] := by
  obtain ⟨_, t, hid⟩ := detectSanctionsFlags_shape h
  rw [hid]
  exact idTag_append _ _ _ _ _ rfl

theorem tag_highvol {data : ClassificationInput} {s : ClassifiedStory}
    (h : s ∈ detectHighVolumePassThrough data) : idTag s.id = ['h', 'i'] := by
  obtain ⟨_, t, hid⟩ := detectHighVolumePassThrough_shape h
  rw [hid]
  exact idTag_append _ _ _ _ _ rfl

theorem tag_cluster {data : ClassificationInput} {s : ClassifiedStory}
    (h : s ∈ detectDarkMoneyClusters data) : idTag s.id = ['c', 'l'] := by
  obtain ⟨_, t, hid⟩ := detectDarkMoneyClusters_shape h
  rw [hid]
  exact idTag_append _ _ _ _ _ rfl

theorem tag_inv {data : ClassificationInput} {prior : List ClassifiedStory}
    {s : ClassifiedStory} (h : s ∈ detectInvestigationStories data prior) :
    idTag s.id = ['i', 'n'] := by
  obtain ⟨_, t, hid⟩ := detectInvestigationStories_shape h
  rw [hid]
  exact idTag_append _ _ _ _ _ rfl

theorem ne_of_tags {a b : ClassifiedStory} (t1 t2 : List Char)
    (h1 : idTag a.id = t1) (h2 : idTag b.id = t2) (hne : ¬ t1 = t2) :
    ¬ a.id = b.id := by
  intro h
  rw [← h1, ← h2, h] at hne
  exact hne rfl

theorem nodup_map_id_append {l1 l2 : List ClassifiedStory}
    (h1 : (l1.map (fun s => s.id)).Nodup) (h2 : (l2.map (fun s => s.id)).Nodup)
    (hdisj : ∀ x ∈ l1, ∀ y ∈ l2, ¬ x.id = y.id) :
    (((l1 ++ l2).map (fun s => s.id))).Nodup := by
  rw [List.map_append, List.nodup_append]
  refine ⟨h1, h2, ?_⟩
  intro a ha hb
  rcases List.mem_map.mp ha with ⟨x, hx, rfl⟩
  rcases List.mem_map.mp hb with ⟨y, hy, hxy⟩
  exact hdisj x hx y hy hxy.symm

/-- Story ids from different detectors never collide (distinct prefixes),
so the full list of ids is Nodup as soon as each detector's own ids are. -/
theorem allDetector_ids_nodup (data : ClassificationInput)
    (h1 : ((detectVendorSiphoning data).map (fun s => s.id)).Nodup)
    (h2 : ((detectCrossCampaignNetworks data).map (fun s => s.id)).Nodup)
    (h3 : ((detectRevolvingDoor data).map (fun s => s.id)).Nodup)
    (h4 : ((detectFamilyPayments data).map (fun s => s.id)).Nodup)
    (h5 : ((detectSanctionsFlags data).map (fun s => s.id)).Nodup)
    (h6 : ((detectHighVolumePassThrough data).map (fun s => s.id)).Nodup)
    (h7 : ((detectDarkMoneyClusters data).map (fun s => s.id)).Nodup)
    (h8 : ((detectInvestigationStories data
      (preInvestigationStories data)).map (fun s => s.id)).Nodup) :
    ((allDetectorStories data).map (fun s => s.id)).Nodup := by
  have n2 := nodup_map_id_append h1 h2 (fun x hx y hy =>
    ne_of_tags _ _ (tag_siphon hx) (tag_cross hy) (by decide))
  have n3 := nodup_map_id_append n2 h3 (fun x hx y hy => by
    rcases List.mem_append.mp hx with hx | hx
    · exact ne_of_tags _ _ (tag_siphon hx) (tag_revolving hy) (by decide)
    · exact ne_of_tags _ _ (tag_cross hx) (tag_revolving hy) (by decide))
  have n4 := nodup_map_id_append n3 h4 (fun x hx y hy => by
    rcases List.mem_append.mp hx with hx | hx
    rotate_left
    · exact ne_of_tags _ _ (tag_revolving hx) (tag_family hy) (by decide)
    rcases List.mem_append.mp hx with hx | hx
    · exact ne_of_tags _ _ (tag_siphon hx) (tag_family hy) (by decide)
    · exact ne_of_tags _ _ (tag_cross hx) (tag_family hy) (by decide))
  have n5 := nodup_map_id_append n4 h5 (fun x hx y hy => by
    rcases List.mem_append.mp hx with hx | hx
    rotate_left
    · exact ne_of_tags _ _ (tag_family hx) (tag_sanctions hy) (by decide)
    rcases List.mem_append.mp hx with hx | hx
    rotate_left
    · exact ne_of_tags _ _ (tag_revolving hx) (tag_sanctions hy) (by decide)
    rcases List.mem_append.mp hx with hx | hx
    · exact ne_of_tags _ _ (tag_siphon hx) (tag_sanctions hy) (by decide)
    · exact ne_of_tags _ _ (tag_cross hx) (tag_sanctions hy) (by decide))
  have n6 := nodup_map_id_append n5 h6 (fun x hx y hy => by
    rcases List.mem_append.mp hx with hx | hx
    rotate_left
    · exact ne_of_tags _ _ (tag_sanctions hx) (tag_highvol hy) (by decide)
    rcases List.mem_append.mp hx with hx | hx
    rotate_left
    · exact ne_of_tags _ _ (tag_family hx) (tag_highvol hy) (by decide)
    rcases List.mem_append.mp hx with hx | hx
    rotate_left
    · exact ne_of_tags _ _ (tag_revolving hx) (tag_highvol hy) (by decide)
    rcases List.mem_append.mp hx with hx | hx
    · exact ne_of_tags _ _ (tag_siphon hx) (tag_highvol hy) (by decide)
    · exact ne_of_tags _ _ (tag_cross hx) (tag_highvol hy) (by decide))
  have n7 := nodup_map_id_append n6 h7 (fun x hx y hy => by
    rcases List.mem_append.mp hx with hx | hx
    rotate_left
    · exact ne_of_tags _ _ (tag_highvol hx) (tag_cluster hy) (by decide)
    rcases List.mem_append.mp hx with hx | hx
    rotate_left
    · exact ne_of_tags _ _ (tag_sanctions hx) (tag_cluster hy) (by decide)
    rcases List.mem_append.mp hx with hx | hx
    rotate_left
    · exact ne_of_tags _ _ (tag_family hx) (tag_cluster hy) (by decide)
    rcases List.mem_append.mp hx with hx | hx
    rotate_left
    · exact ne_of_tags _ _ (tag_revolving hx) (tag_cluster hy) (by decide)
    rcases List.mem_append.mp hx with hx | hx
    · exact ne_of_tags _ _ (tag_siphon hx) (tag_cluster hy) (by decide)
    · exact ne_of_tags _ _ (tag_cross hx) (tag_cluster hy) (by decide))
  exact nodup_map_id_append n7 h8 (fun x hx y hy => by
    rcases List.mem_append.mp hx with hx | hx
    rotate_left
    · exact ne_of_tags _ _ (tag_cluster hx) (tag_inv hy) (by decide)
    rcases List.mem_append.mp hx with hx | hx
    rotate_left
    · exact ne_of_tags _ _ (tag_highvol hx) (tag_inv hy) (by decide)
    rcases List.mem_append.mp hx with hx | hx
    rotate_left
    · exact ne_of_tags _ _ (tag_sanctions hx) (tag_inv hy) (by decide)
    rcases List.mem_append.mp hx with hx | hx
    rotate_left
    · exact ne_of_tags _ _ (tag_family hx) (tag_inv hy) (by decide)
    rcases List.mem_append.mp hx with hx | hx
    rotate_left
    · exact ne_of_tags _ _ (tag_revolving hx) (tag_inv hy) (by decide)
    rcases List.mem_append.mp hx with hx | hx
    · exact ne_of_tags _ _ (tag_siphon hx) (tag_inv hy) (by decide)
    · exact ne_of_tags _ _ (tag_cross hx) (tag_inv hy) (by decide))

/-- C6 (corrected): story ids from distinct detectors never collide, so the
ids of a classification run are pairwise distinct whenever each single
detector's own ids are pairwise distinct.  The counterexample shows the
unconditional claim fails inside one detector. -/
theorem C6_unique_ids_amended (data : ClassificationInput)
    (h1 : ((detectVendorSiphoning data).map (fun s => s.id)).Nodup)
    (h2 : ((detectCrossCampaignNetworks data).map (fun s => s.id)).Nodup)
    (h3 : ((detectRevolvingDoor data).map (fun s => s.id)).Nodup)
    (h4 : ((detectFamilyPayments data).map (fun s => s.id)).Nodup)
    (h5 : ((detectSanctionsFlags data).map (fun s => s.id)).Nodup)
    (h6 : ((detectHighVolumePassThrough data).map (fun s => s.id)).Nodup)
    (h7 : ((detectDarkMoneyClusters data).map (fun s => s.id)).Nodup)
    (h8 : ((detectInvestigationStories data
      (preInvestigationStories data)).map (fun s => s.id)).Nodup) :
    ((classifyStories data).map (fun s => s.id)).Nodup := by
  have hall := allDetector_ids_nodup data h1 h2 h3 h4 h5 h6 h7 h8
  have hperm : (classifyStories data).Perm (storiesWithFallback data) :=
    List.perm_insertionSort _ _
  rw [(hperm.map (fun s => s.id)).nodup_iff]
  unfold storiesWithFallback
  by_cases h0 : (allDetectorStories data).length = 0 ∧
      (0 < data.disbursements.length ∨ 0 < data.entities.length ∨
        0 < data.signals.length)
  · rw [if_pos h0]
    rw [List.length_eq_zero.mp h0.1]
    simp
  · rw [if_neg h0]
    exact hall

/-- C6 counterexample: two distinct normalized vendor names that share their
first 20 characters yield two stories with the identical id
siphon-AAAAAAAAAAAAAAAAAAAA, because the id truncates the vendor key. -/
theorem C6_counterexample :
    (classifyStories exDupVendor).map (fun s => s.id) =
      ["siphon-AAAAAAAAAAAAAAAAAAAA", "siphon-AAAAAAAAAAAAAAAAAAAA"] ∧
    ¬ ((classifyStories exDupVendor).map (fun s => s.id)).Nodup := by
  have h : (classifyStories exDupVendor).map (fun s => s.id) =
      ["siphon-AAAAAAAAAAAAAAAAAAAA", "siphon-AAAAAAAAAAAAAAAAAAAA"] := by
    norm_num +decide [classifyStories, storiesWithFallback, allDetectorStories,
      preInvestigationStories, detectVendorSiphoning, siphonStoryFor,
      siphonEntityStory, siphonCommitteeStory, vendorMapOf, payerEntityList,
      payerCommitteeList, vendorGroupTotal, normVendorName, vendorKeyOk,
      genericVendorNames, committeeKeyOf, latestDate,
      detectCrossCampaignNetworks, crossSignalsOf, crossVendorOf, crossAmt,
      crossEntityIds, mkCrossStory, detectRevolvingDoor, ldaSourceOk,
      findingLobbyists, revolvingStoryFor, mkRevolvingStory,
      detectFamilyPayments, spousalSignalsOf, mkFamilyStory,
      detectSanctionsFlags, screeningGroups, screeningList, mkSanctionsStory,
      jsIncludes, detectHighVolumePassThrough, hvSignalsOf, hvTotal,
      mkHighVolStory, detectDarkMoneyClusters, clustersOf, adjOf, adjStep,
      addNbr, setIfAbsent, modifyA, getA, adjGet, findClustersGo, explore,
      bridgeScoresOf, bridgeStep, bridgeGet, entityDisbursementsOf, hubOf,
      jsMaxList, mkClusterStory, underscoresToSpaces,
      detectInvestigationStories, invGo, mkInvStory, alreadyCovered,
      formatSourceLabel, dataLoadedStory, storyLE, severityOrder, groupByKey,
      dedupFirst, entityName, lookupEntity, jsOrStr, jsOrNum, jsTruthy,
      jsToUpper, jsTrim, jsSlice, jsMaxStr, disbAmt, List.insertionSort,
      List.orderedInsert, List.filterMap, List.filter, List.foldl, List.find?,
      List.headD, List.head?, List.take, List.flatten, List.any, List.all,
      Option.bind, Option.getD, exDupVendor, exEmpty, mkDisb]
  refine ⟨h, ?_⟩
  rw [h]
  intro hn
  exact (List.nodup_cons.mp hn).1 (List.mem_singleton.mpr rfl)

/-- Witness for the amended C6 theorem on a concrete snapshot. -/
theorem C6_unique_ids_amended_witness :
    ((classifyStories exOneEntity).map (fun s => s.id)).Nodup :=
  C6_unique_ids_amended exOneEntity
    List.nodup_nil List.nodup_nil List.nodup_nil List.nodup_nil
    List.nodup_nil List.nodup_nil List.nodup_nil List.nodup_nil


/-! ### Claim C9: uncaught detector errors.  The classifier has no try/catch;
the free-form detail field revolving_door_lobbyists is cast to an array
without a runtime check, so a truthy non-array value reaches
lobbyists.slice and throws, aborting the whole run.  The model below makes
the possible throw explicit with Except. -/

/-- JS value held by the free-form revolving_door_lobbyists detail field:
a proper array of lobbyist records, or any other truthy value (the field
comes from free-form JSON, so nothing guarantees an array). -/
inductive LobbyistsVal where
  | arr (l : List Lobbyist)
  | nonArr
deriving DecidableEq, Repr

structure FindingDetailE where
  revolving_door_lobbyists : Option LobbyistsVal
deriving DecidableEq, Repr

structure FindingE where
  source : String
  summary : String
  detail : Option FindingDetailE
deriving DecidableEq, Repr

structure MmixEntryE where
  id : String
  entity_id : String
  entity_name : String
  status : String
  thesis : String
  sources_queried : List String
  findings : List FindingE
  entered_at : String
deriving DecidableEq, Repr

/-- Classification input whose investigation findings may carry an
arbitrarily shaped revolving_door_lobbyists value. -/
structure ClassificationInputE where
  signals : List Signal
  investigations : List MmixEntryE
  relationships : List Relationship
  entities : List Entity
  disbursements : List FecDisbursement
  screenings : List ScreeningResult
  kbNodes : List KbNode
deriving DecidableEq, Repr

/-- Projection to the well-shaped model: a non-array value is dropped (it
only matters to the revolving-door detector, which would throw on it). -/
def eraseDetailE (d : FindingDetailE) : FindingDetail :=
  { revolving_door_lobbyists :=
      match d.revolving_door_lobbyists with
      | some (.arr l) => some l
      | some .nonArr => none
      | none => none }

def eraseFindingE (f : FindingE) : Finding :=
  { source := f.source, summary := f.summary, detail := f.detail.map eraseDetailE }

def eraseMmixE (m : MmixEntryE) : MmixEntry :=
  { id := m.id, entity_id := m.entity_id, entity_name := m.entity_name,
    status := m.status, thesis := m.thesis, sources_queried := m.sources_queried,
    findings := m.findings.map eraseFindingE, entered_at := m.entered_at }

def eraseInputE (d : ClassificationInputE) : ClassificationInput :=
  { signals := d.signals, investigations := d.investigations.map eraseMmixE,
    relationships := d.relationships, entities := d.entities,
    disbursements := d.disbursements, screenings := d.screenings,
    kbNodes := d.kbNodes }

def findingLobbyistsE (f : FindingE) : Option LobbyistsVal :=
  f.detail.bind (fun dt => dt.revolving_door_lobbyists)

/-- Lines 277-308 on a single finding with the free-form value made
explicit: a truthy non-array value passes the length === 0 test (its
length is undefined, not 0) and then throws at lobbyists.slice in the
narrative construction. -/
def revolvingStoryForE (data : ClassificationInputE) (inv : MmixEntryE)
    (f : FindingE) : Except String (Option ClassifiedStory) :=
  match findingLobbyistsE f with
  | some (.arr l) =>
    if l.length = 0 then .ok none
    else .ok (some (mkRevolvingStory (eraseInputE data) (eraseMmixE inv)
      (eraseFindingE f)))
  | some .nonArr => .error "TypeError: lobbyists.slice is not a function"
  | none => .ok none

def revolvingFoldE (data : ClassificationInputE) (inv : MmixEntryE) :
    List FindingE → Except String (List ClassifiedStory)
  | [] => .ok []
  | f :: rest =>
    match revolvingStoryForE data inv f with
    | .error e => .error e
    | .ok none => revolvingFoldE data inv rest
    | .ok (some s) =>
      match revolvingFoldE data inv rest with
      | .error e => .error e
      | .ok l => .ok (s :: l)

def ldaFindingsE (inv : MmixEntryE) : List FindingE :=
  inv.findings.filter (fun f => ldaSourceOk f.source ∧ (findingLobbyistsE f).isSome)

def revolvingGoE (data : ClassificationInputE) :
    List MmixEntryE → Except String (List ClassifiedStory)
  | [] => .ok []
  | inv :: rest =>
    match revolvingFoldE data inv (ldaFindingsE inv) with
    | .error e => .error e
    | .ok l =>
      match revolvingGoE data rest with
      | .error e => .error e
      | .ok l2 => .ok (l ++ l2)

def detectRevolvingDoorE (data : ClassificationInputE) :
    Except String (List ClassifiedStory) :=
  revolvingGoE data data.investigations

/-- classifyStories with the revolving-door throw made explicit: there is no
try/catch anywhere in the classifier, so a throw inside the detector
propagates and the run produces no stories at all. -/
def classifyStoriesE (data : ClassificationInputE) :
    Except String (List ClassifiedStory) :=
  match detectRevolvingDoorE data with
  | .error e => .error e
  | .ok _ => .ok (classifyStories (eraseInputE data))

/-- ACME vendor-siphoning disbursements plus one investigation whose Senate
LDA finding carries a truthy non-array revolving_door_lobbyists value. -/
def exBadDetailE : ClassificationInputE :=
  { signals := [], relationships := [], entities := [], screenings := [],
    kbNodes := []
    disbursements := exAcme.disbursements
    investigations :=
      [{ id := "i9", entity_id := "zz", entity_name := "ZZ Corp",
         status := "active", thesis := "", sources_queried := []
         findings :=
           [{ source := "Senate LDA", summary := "registered lobbyists",
              detail := some { revolving_door_lobbyists := some .nonArr } }]
         entered_at := "2024-01-01" }] }

theorem findingLobbyists_erase (f : FindingE) :
    findingLobbyists (eraseFindingE f) =
      match findingLobbyistsE f with
      | some (.arr lb) => some lb
      | _ => none := by
  unfold findingLobbyists findingLobbyistsE eraseFindingE eraseDetailE
  rcases f with ⟨src, sum, detail⟩
  rcases detail with _ | dt
  · rfl
  · rcases dt with ⟨rdl⟩
    rcases rdl with _ | v
    · rfl
    · rcases v with lb | _
      · rfl
      · rfl

/-- A successful fold never saw a non-array value. -/
theorem revolvingFoldE_ok_no_err (data : ClassificationInputE)
    (inv : MmixEntryE) :
    ∀ (fs : List FindingE) (l : List ClassifiedStory),
      revolvingFoldE data inv fs = .ok l →
      ∀ f ∈ fs, ¬ findingLobbyistsE f = some .nonArr := by
  intro fs
  induction fs with
  | nil =>
    intro l _ f hf
    cases hf
  | cons f rest ih =>
    intro l h g hg
    unfold revolvingFoldE at h
    rcases List.mem_cons.mp hg with rfl | hg
    · intro hbad
      rw [show revolvingStoryForE data inv g =
          .error "TypeError: lobbyists.slice is not a function" from by
        unfold revolvingStoryForE
        rw [hbad]] at h
      cases h
    · rcases hfe : revolvingStoryForE data inv f with e | o
      · rw [hfe] at h
        cases h
      · rw [hfe] at h
        rcases o with _ | s
        · exact ih l h g hg
        · rcases hrest : revolvingFoldE data inv rest with e | l2
          · rw [hrest] at h
            cases h
          · exact ih l2 hrest g hg

/-- Value of a successful fold: exactly the stories the well-shaped detector
builds from the erased findings. -/
theorem revolvingFoldE_ok_val (data : ClassificationInputE)
    (inv : MmixEntryE) :
    ∀ (fs : List FindingE) (l : List ClassifiedStory),
      revolvingFoldE data inv fs = .ok l →
      l = (fs.map eraseFindingE).filterMap
        (fun f => revolvingStoryFor (eraseInputE data) (eraseMmixE inv) f) := by
  intro fs
  induction fs with
  | nil =>
    intro l h
    rw [show l = [] from (Except.ok.inj h).symm]
    rfl
  | cons f rest ih =>
    intro l h
    unfold revolvingFoldE at h
    rw [List.map_cons, List.filterMap_cons]
    have hplain : revolvingStoryFor (eraseInputE data) (eraseMmixE inv)
        (eraseFindingE f) =
        match findingLobbyistsE f with
        | some (.arr lb) =>
          if lb.length = 0 then none
          else some (mkRevolvingStory (eraseInputE data) (eraseMmixE inv)
            (eraseFindingE f))
        | _ => none := by
      unfold revolvingStoryFor
      rw [findingLobbyists_erase]
      rcases hfl : findingLobbyistsE f with _ | v
      · rfl
      · rcases v with lb | _
        · simp only [Option.getD_some]
        · rfl
    rcases hfl : findingLobbyistsE f with _ | v
    · rw [show revolvingStoryForE data inv f = .ok none from by
        unfold revolvingStoryForE
        rw [hfl]] at h
      rw [hplain, hfl]
      exact ih l h
    · rcases v with lb | _
      · by_cases hlen : lb.length = 0
        · rw [show revolvingStoryForE data inv f = .ok none from by
            simp only [revolvingStoryForE, hfl]
            rw [if_pos hlen]] at h
          rw [hplain, hfl]
          simp only [if_pos hlen]
          exact ih l h
        · rw [show revolvingStoryForE data inv f =
              .ok (some (mkRevolvingStory (eraseInputE data) (eraseMmixE inv)
                (eraseFindingE f))) from by
            simp only [revolvingStoryForE, hfl]
            rw [if_neg hlen]] at h
          rcases hrest : revolvingFoldE data inv rest with e | l2
          · rw [hrest] at h
            cases h
          · rw [hrest] at h
            rw [show l = mkRevolvingStory (eraseInputE data) (eraseMmixE inv)
                (eraseFindingE f) :: l2 from (Except.ok.inj h).symm]
            rw [hplain, hfl]
            simp only [if_neg hlen]
            rw [ih l2 hrest]
      · rw [show revolvingStoryForE data inv f =
            .error "TypeError: lobbyists.slice is not a function" from by
          unfold revolvingStoryForE
          rw [hfl]] at h
        cases h

/-- Filtering commutes with erasure when no LDA finding holds a non-array
value. -/
theorem filter_erase_comm (fs : List FindingE)
    (hok : ∀ f ∈ fs, ldaSourceOk f.source → ¬ findingLobbyistsE f = some .nonArr) :
    (fs.map eraseFindingE).filter (fun f =>
        ldaSourceOk f.source ∧ (findingLobbyists f).isSome) =
      (fs.filter (fun f =>
        ldaSourceOk f.source ∧ (findingLobbyistsE f).isSome)).map eraseFindingE := by
  induction fs with
  | nil => rfl
  | cons f rest ih =>
    rw [List.map_cons, List.filter_cons, List.filter_cons]
    have hsrc : (eraseFindingE f).source = f.source := rfl
    have hrest := ih (fun g hg => hok g (List.mem_cons_of_mem _ hg))
    rcases hfl : findingLobbyistsE f with _ | v
    · have h1 : findingLobbyists (eraseFindingE f) = none := by
        rw [findingLobbyists_erase, hfl]
      rw [if_neg (by simp [hsrc, h1]), if_neg (by simp [hfl])]
      exact hrest
    · rcases v with lb | _
      · have h1 : findingLobbyists (eraseFindingE f) = some lb := by
          rw [findingLobbyists_erase, hfl]
        by_cases hsok : ldaSourceOk f.source
        · rw [if_pos (by simp [hsrc, h1, hsok]), if_pos (by simp [hfl, hsok])]
          rw [List.map_cons, hrest]
        · rw [if_neg (by simp [hsrc, h1, hsok]), if_neg (by simp [hfl, hsok])]
          exact hrest
      · have hnok : ¬ ldaSourceOk f.source := by
          intro hsok
          exact hok f (List.mem_cons_self _ _) hsok hfl
        have h1 : findingLobbyists (eraseFindingE f) = none := by
          rw [findingLobbyists_erase, hfl]
        rw [if_neg (by simp [hsrc, h1]), if_neg (by simp [hnok])]
        exact hrest

/-- Value of a successful run of the explicit-error loop. -/
theorem revolvingGoE_ok (data : ClassificationInputE) :
    ∀ (invs : List MmixEntryE) (l : List ClassifiedStory),
      revolvingGoE data invs = .ok l →
      l = ((invs.map eraseMmixE).map (fun inv =>
        (inv.findings.filter (fun f =>
          ldaSourceOk f.source ∧ (findingLobbyists f).isSome)).filterMap
            (fun f => revolvingStoryFor (eraseInputE data) inv f))).flatten := by
  intro invs
  induction invs with
  | nil =>
    intro l h
    rw [show l = [] from (Except.ok.inj h).symm]
    rfl
  | cons inv rest ih =>
    intro l h
    unfold revolvingGoE at h
    rcases hfold : revolvingFoldE data inv (ldaFindingsE inv) with e | l1
    · rw [hfold] at h
      cases h
    · rw [hfold] at h
      rcases hrest : revolvingGoE data rest with e | l2
      · rw [hrest] at h
        cases h
      · rw [hrest] at h
        rw [show l = l1 ++ l2 from (Except.ok.inj h).symm]
        rw [List.map_cons, List.map_cons, List.flatten_cons]
        have hne := revolvingFoldE_ok_no_err data inv _ l1 hfold
        have hval := revolvingFoldE_ok_val data inv _ l1 hfold
        have hfilter := filter_erase_comm inv.findings (fun f hf hsok hbad => by
          refine hne f ?_ hbad
          unfold ldaFindingsE
          exact List.mem_filter.mpr ⟨hf, by simp [hsok, hbad]⟩)
        rw [ih l2 hrest]
        congr 1
        rw [hval]
        rw [show (eraseMmixE inv).findings = inv.findings.map eraseFindingE from rfl]
        rw [hfilter]
        rfl

/-- A successful run of the explicit-error detector computes exactly what the
well-shaped detector computes on the erased snapshot. -/
theorem detectRevolvingDoorE_ok (data : ClassificationInputE)
    (l : List ClassifiedStory) (h : detectRevolvingDoorE data = .ok l) :
    l = detectRevolvingDoor (eraseInputE data) :=
  revolvingGoE_ok data data.investigations l h

set_option maxHeartbeats 1600000 in
/-- C9: the classifier contains no try/catch, so a malformed free-form
revolving_door_lobbyists value (truthy but not an array) makes the
revolving-door detector throw at lobbyists.slice and aborts the whole
classification; the vendor-siphoning story the run would otherwise deliver
is lost, contradicting the claim that such an error is confined to the
failing detector. -/
theorem C9_uncaught_error :
    classifyStoriesE exBadDetailE =
      .error "TypeError: lobbyists.slice is not a function" ∧
    (classifyStories (eraseInputE exBadDetailE)).map (fun s => s.pattern) =
      ["VENDOR_SIPHONING"] := by
  constructor
  · rfl
  · norm_num +decide [classifyStories, storiesWithFallback, allDetectorStories,
      preInvestigationStories, detectVendorSiphoning, siphonStoryFor,
      siphonEntityStory, siphonCommitteeStory, vendorMapOf, payerEntityList,
      payerCommitteeList, vendorGroupTotal, normVendorName, vendorKeyOk,
      genericVendorNames, committeeKeyOf, latestDate,
      detectCrossCampaignNetworks, crossSignalsOf, crossVendorOf, crossAmt,
      crossEntityIds, mkCrossStory, detectRevolvingDoor, ldaSourceOk,
      findingLobbyists, revolvingStoryFor, mkRevolvingStory,
      detectFamilyPayments, spousalSignalsOf, mkFamilyStory,
      detectSanctionsFlags, screeningGroups, screeningList, mkSanctionsStory,
      jsIncludes, detectHighVolumePassThrough, hvSignalsOf, hvTotal,
      mkHighVolStory, detectDarkMoneyClusters, clustersOf, adjOf, adjStep,
      addNbr, setIfAbsent, modifyA, getA, adjGet, findClustersGo, explore,
      bridgeScoresOf, bridgeStep, bridgeGet, entityDisbursementsOf, hubOf,
      jsMaxList, mkClusterStory, underscoresToSpaces,
      detectInvestigationStories, invGo, mkInvStory, alreadyCovered,
      formatSourceLabel, dataLoadedStory, storyLE, severityOrder, groupByKey,
      dedupFirst, entityName, lookupEntity, jsOrStr, jsOrNum, jsTruthy,
      jsToUpper, jsTrim, jsSlice, jsMaxStr, disbAmt, List.insertionSort,
      List.orderedInsert, List.filterMap, List.filter, List.foldl, List.find?,
      List.headD, List.head?, List.take, List.flatten, List.any, List.all,
      Option.bind, Option.getD, eraseInputE, eraseMmixE, eraseFindingE,
      eraseDetailE, exBadDetailE, exAcme, exEmpty, mkDisb, List.map]


end Grift

